import Mathlib

/-!
# MediScan frontend: session and request-authorization layer

A shallow embedding of `frontend/src/contexts/AuthContext.jsx`,
`frontend/src/services/api.js`, `handleSignupSubmit` of
`frontend/src/components/AuthForm.jsx` and `validateFile` of
`frontend/src/components/FileUpload.jsx`.

* JavaScript values are the inductive `JSVal`: `undefined` and the values of
  JSON, arrays included; numbers are integers (in a value: safe integers), so
  NaN and fractions are outside the model.
* `localStorage` is an association list from keys to strings.
* The React state of `AuthProvider` (`user`, `loading`, `error`) together with
  `localStorage` is the record `AuthState`; a `setX(v)` call is a field update.
* `jwtDecode` belongs to the external package `jwt-decode`; it is a parameter
  of the model, `none` standing for a thrown `InvalidTokenError`.
* `Date.now()` is a parameter, an integer number of milliseconds.
* The transport and the server are a parameter `http`, a function from the
  request configuration to a response or a rejection.
* Strings are sequences of Unicode scalar values; `encodeURIComponent` is
  written out on them with UTF-8 octets as numbers.
-/

namespace MediScan

/-! ## JavaScript values -/

/-- A JavaScript value, as far as the session layer inspects one: the values
of JSON and `undefined`. A number is a safe integer, one that a double holds
exactly and that is printed in plain decimal; an `obj` is a plain object. -/
inductive JSVal where
  | undefined : JSVal
  | null : JSVal
  | bool (b : Bool) : JSVal
  | num (n : Int) (safe : n.natAbs < 9007199254740992) : JSVal
  | str (s : String) : JSVal
  | arr (items : List JSVal) : JSVal
  | obj (fields : List (String × JSVal)) : JSVal

mutual
/-- Decision procedure for equality of values. -/
def JSVal.decEq : (a b : JSVal) → Decidable (a = b)
  | .undefined, .undefined => isTrue rfl
  | .null, .null => isTrue rfl
  | .bool x, .bool y => if h : x = y then isTrue (by rw [h]) else isFalse (by intro e; cases e; exact h rfl)
  | .num x _, .num y _ =>
    if h : x = y then isTrue (by subst h; rfl) else isFalse (by intro e; cases e; exact h rfl)
  | .str x, .str y => if h : x = y then isTrue (by rw [h]) else isFalse (by intro e; cases e; exact h rfl)
  | .arr x, .arr y =>
    match JSVal.decEqItems x y with
    | isTrue h => isTrue (by rw [h])
    | isFalse h => isFalse (by intro e; cases e; exact h rfl)
  | .obj x, .obj y =>
    match JSVal.decEqFields x y with
    | isTrue h => isTrue (by rw [h])
    | isFalse h => isFalse (by intro e; cases e; exact h rfl)
  | .undefined, .null | .undefined, .bool _ | .undefined, .num _ _ | .undefined, .str _ | .undefined, .arr _ | .undefined, .obj _ => isFalse (by intro e; cases e)
  | .null, .undefined | .null, .bool _ | .null, .num _ _ | .null, .str _ | .null, .arr _ | .null, .obj _ => isFalse (by intro e; cases e)
  | .bool _, .undefined | .bool _, .null | .bool _, .num _ _ | .bool _, .str _ | .bool _, .arr _ | .bool _, .obj _ => isFalse (by intro e; cases e)
  | .num _ _, .undefined | .num _ _, .null | .num _ _, .bool _ | .num _ _, .str _ | .num _ _, .arr _ | .num _ _, .obj _ => isFalse (by intro e; cases e)
  | .str _, .undefined | .str _, .null | .str _, .bool _ | .str _, .num _ _ | .str _, .arr _ | .str _, .obj _ => isFalse (by intro e; cases e)
  | .arr _, .undefined | .arr _, .null | .arr _, .bool _ | .arr _, .num _ _ | .arr _, .str _ | .arr _, .obj _ => isFalse (by intro e; cases e)
  | .obj _, .undefined | .obj _, .null | .obj _, .bool _ | .obj _, .num _ _ | .obj _, .str _ | .obj _, .arr _ => isFalse (by intro e; cases e)
/-- Decision procedure for equality of lists of values. -/
def JSVal.decEqItems : (a b : List JSVal) → Decidable (a = b)
  | [], [] => isTrue rfl
  | [], _ :: _ => isFalse (by intro e; cases e)
  | _ :: _, [] => isFalse (by intro e; cases e)
  | v1 :: r1, v2 :: r2 =>
    match JSVal.decEq v1 v2 with
    | isTrue hv =>
      match JSVal.decEqItems r1 r2 with
      | isTrue hr => isTrue (by rw [hv, hr])
      | isFalse hr => isFalse (by intro e; cases e; exact hr rfl)
    | isFalse hv => isFalse (by intro e; cases e; exact hv rfl)
/-- Decision procedure for equality of property lists. -/
def JSVal.decEqFields : (a b : List (String × JSVal)) → Decidable (a = b)
  | [], [] => isTrue rfl
  | [], _ :: _ => isFalse (by intro e; cases e)
  | _ :: _, [] => isFalse (by intro e; cases e)
  | (k1, v1) :: r1, (k2, v2) :: r2 =>
    if hk : k1 = k2 then
      match JSVal.decEq v1 v2 with
      | isTrue hv =>
        match JSVal.decEqFields r1 r2 with
        | isTrue hr => isTrue (by rw [hk, hv, hr])
        | isFalse hr => isFalse (by intro e; cases e; exact hr rfl)
      | isFalse hv => isFalse (by intro e; cases e; exact hv rfl)
    else isFalse (by intro e; cases e; exact hk rfl)
end

instance : DecidableEq JSVal := JSVal.decEq

deriving instance DecidableEq for Except

namespace JSVal

/-- ToBoolean: what `if (v)` and `v && ...` test. -/
def truthy : JSVal → Bool
  | undefined => false
  | null => false
  | bool b => b
  | num n _ => n != 0
  | str s => s != ""
  | arr _ => true
  | obj _ => true

/-- Optional property read `v?.key` for the keys the session layer reads
(`detail`, `message`): the own property of an object, `undefined` on
`null`, `undefined` and on primitives. -/
def get (v : JSVal) (key : String) : JSVal :=
  match v with
  | obj fields => (fields.lookup key).getD undefined
  | _ => undefined

/-- The test `typeof v === "string"`. -/
def isString : JSVal → Bool
  | str _ => true
  | _ => false

end JSVal

/-! ## localStorage -/

/-- The browser's `localStorage`: string keys bound to string values. -/
abbrev Storage := List (String × String)

namespace Storage

/-- Model of `localStorage.getItem(key)`; `none` is JavaScript `null`. -/
def getItem (st : Storage) (key : String) : Option String :=
  st.lookup key

/-- Model of `localStorage.removeItem(key)`. -/
def removeItem (st : Storage) (key : String) : Storage :=
  st.filter (fun p => p.1 != key)

/-- Model of `localStorage.setItem(key, value)`. -/
def setItem (st : Storage) (key : String) (value : String) : Storage :=
  (key, value) :: removeItem st key

end Storage

/-- Truthiness of the result of `localStorage.getItem`: `null` and the empty
string are falsy. -/
def tokenTruthy : Option String → Bool
  | some t => t != ""
  | none => false

/-! ## Decoded token claims -/

/-- What `jwtDecode(token)` returns, as far as `checkAuth` reads it:
`decoded.sub` (any value) and `decoded.exp`, a NumericDate in seconds,
`none` when the claim is absent. -/
structure Claims where
  sub : JSVal
  exp : Option Int
  deriving DecidableEq

/-- The condition `decoded.exp && decoded.exp < currentTime` with
`currentTime = Date.now() / 1000`: the claim is truthy (present and non-zero)
and strictly below the clock, compared exactly in milliseconds. -/
def isExpired (decoded : Claims) (nowMs : Nat) : Bool :=
  match decoded.exp with
  | some e => e != 0 && decide (e * 1000 < (nowMs : Int))
  | none => false

/-! ## AuthContext state -/

/-- The object `{ username: decoded.sub }` held in the `user` state. -/
structure User where
  username : JSVal
  deriving DecidableEq

/-- State of `AuthProvider` together with `localStorage`. `user = none` is
`null`; `error` is `JSVal.null` when no error is recorded. -/
structure AuthState where
  storage : Storage
  user : Option User
  loading : Bool
  error : JSVal
  deriving DecidableEq

/-- The context value `isAuthenticated: !!user`. -/
def AuthState.isAuthenticated (s : AuthState) : Bool :=
  s.user.isSome

/-- Model of `checkAuth` (AuthContext.jsx lines 14-33). The first component is
the completion of the call: `Except.ok ()` for a normal return, an error for
a throw; the only throwing call, `jwtDecode`, sits inside `try`/`catch`. -/
def checkAuth (jwtDecode : String → Option Claims) (nowMs : Nat) (s : AuthState) :
    Except JSVal Unit × AuthState :=
  let token := s.storage.getItem "token"
  let s1 : AuthState :=
    if tokenTruthy token then
      match jwtDecode (token.getD "") with
      | some decoded =>
        if isExpired decoded nowMs then
          { s with storage := s.storage.removeItem "token", user := none }
        else
          { s with user := some { username := decoded.sub } }
      | none =>
        { s with storage := s.storage.removeItem "token", user := none }
    else s
  (Except.ok (), { s1 with loading := false })

/-! ## api.js -/

/-- The `response` object of an axios error: HTTP status and parsed body. -/
structure Response where
  status : Int
  data : JSVal
  deriving DecidableEq

/-- A failure caught around an `api` call: an axios error, whose `response`
is absent (`none`) when no response was received, and its `message`. -/
structure ApiError where
  response : Option Response
  message : JSVal
  deriving DecidableEq

/-- The read `error.response?.data?.key`. -/
def ApiError.dataField (error : ApiError) (key : String) : JSVal :=
  match error.response with
  | some r => r.data.get key
  | none => JSVal.undefined

/-- The comparison `v === "..."` against a string literal. -/
def JSVal.strictEqStr (v : JSVal) (lit : String) : Bool :=
  match v with
  | JSVal.str s => s == lit
  | _ => false

/-- The fixed text returned for the axios message "Network Error". -/
def connectivityMessage : String :=
  "Unable to connect to the server. Please check your internet connection or try again later."

/-- Model of `extractErrorMessage` (api.js lines 46-59). -/
def extractErrorMessage (error : ApiError) (defaultMessage : JSVal) : JSVal :=
  if (error.dataField "detail").truthy then
    error.dataField "detail"
  else if (error.dataField "message").truthy then
    error.dataField "message"
  else if error.message.truthy then
    if error.message.strictEqStr "Network Error" then
      JSVal.str connectivityMessage
    else
      error.message
  else
    defaultMessage

/-- Model of the rejection handler of `api.interceptors.response`
(api.js lines 25-32): on status 401 the token is removed; the promise is
rejected with the error received, which is the first component. -/
def responseInterceptorRejected (error : ApiError) (st : Storage) : ApiError × Storage :=
  let st1 :=
    match error.response with
    | some r => if r.status = 401 then st.removeItem "token" else st
    | none => st
  (error, st1)

/-- The session after a request through `api` failed with `error`: only
`localStorage` is touched, by the response interceptor; the React state of
`AuthProvider` is not. -/
def afterFailedRequest (error : ApiError) (s : AuthState) : AuthState :=
  { s with storage := (responseInterceptorRejected error s.storage).2 }

/-! ## String conversion, property reads and thrown errors -/

mutual
/-- ToString of a value, as applied by `new Error(v)`, `localStorage.setItem`
and `encodeURIComponent`. An `obj` is a plain object without own `toString`
or `valueOf` properties; an array is joined as by `Array.prototype.join`. -/
def JSVal.toJSString : JSVal → String
  | JSVal.undefined => "undefined"
  | JSVal.null => "null"
  | JSVal.bool true => "true"
  | JSVal.bool false => "false"
  | JSVal.num n _ => toString n
  | JSVal.str s => s
  | JSVal.arr items => JSVal.joinItems items
  | JSVal.obj _ => "[object Object]"
/-- The text `items.join(",")`: `null` and `undefined` elements give the
empty string, every other element its string conversion. -/
def JSVal.joinItems : List JSVal → String
  | [] => ""
  | x :: rest =>
    (match x with
      | JSVal.undefined => ""
      | JSVal.null => ""
      | v => JSVal.toJSString v) ++
    (match rest with
      | [] => ""
      | _ :: _ => "," ++ JSVal.joinItems rest)
end

/-- The operator `a || b`. -/
def JSVal.or (a b : JSVal) : JSVal :=
  if a.truthy then a else b

/-- The error object made by `new Error(message)`: no `response`; its
`message` is the string conversion of the argument, and the empty string of
`Error.prototype` when the argument is `undefined`. -/
def newError (message : JSVal) : ApiError :=
  { response := none,
    message := match message with
      | JSVal.undefined => JSVal.str ""
      | m => JSVal.str m.toJSString }

/-- The `TypeError` raised by reading property `key` of `null` or
`undefined`; the message text is the one of the V8 engine. -/
def propertyTypeError (v : JSVal) (key : String) : ApiError :=
  { response := none,
    message := JSVal.str
      ("Cannot read properties of " ++ v.toJSString ++ " (reading '" ++ key ++ "')") }

/-- The plain property read `v.key`, which throws on `null` and `undefined`. -/
def JSVal.prop (v : JSVal) (key : String) : Except ApiError JSVal :=
  match v with
  | JSVal.undefined => Except.error (propertyTypeError v key)
  | JSVal.null => Except.error (propertyTypeError v key)
  | _ => Except.ok (v.get key)

/-! ## Form encoding -/

/-- Upper-case hexadecimal digit of a number below 16. -/
def hexDigit (n : Nat) : Char :=
  if n < 10 then Char.ofNat (48 + n) else Char.ofNat (55 + n)

/-- The escape `%XY` of one byte, given as a number below 256. -/
def percentEncodeByte (b : Nat) : List Char :=
  ['%', hexDigit (b / 16), hexDigit (b % 16)]

/-- The UTF-8 octets of a Unicode scalar value, as numbers. -/
def utf8Bytes (c : Char) : List Nat :=
  if c.toNat < 128 then [c.toNat]
  else if c.toNat < 2048 then [192 + c.toNat / 64, 128 + c.toNat % 64]
  else if c.toNat < 65536 then
    [224 + c.toNat / 4096, 128 + c.toNat / 64 % 64, 128 + c.toNat % 64]
  else
    [240 + c.toNat / 262144, 128 + c.toNat / 4096 % 64, 128 + c.toNat / 64 % 64,
     128 + c.toNat % 64]

/-- The punctuation that `encodeURIComponent` leaves as it is:
`- _ . ! ~ * ' ( )`; character 39 is the apostrophe. -/
def uriMarks : List Char :=
  ['-', '_', '.', '!', '~', '*', Char.ofNat 39, '(', ')']

/-- Characters that `encodeURIComponent` leaves as they are: ASCII letters,
digits and the marks. -/
def isUriUnreserved (c : Char) : Bool :=
  c.isAlphanum || uriMarks.contains c

/-- What `encodeURIComponent` writes for one character. -/
def encodeChar (c : Char) : List Char :=
  if isUriUnreserved c then [c] else (utf8Bytes c).flatMap percentEncodeByte

/-- Model of `encodeURIComponent` on a string of Unicode scalar values: every
character that is not unreserved is replaced by the escapes of its UTF-8
octets. -/
def encodeURIComponent (s : String) : String :=
  String.mk (s.toList.flatMap encodeChar)

/-- Model of `toFormUrlEncoded` (api.js lines 36-43) on the entries of the
object, in insertion order; keys are strings, values are converted to
strings by `encodeURIComponent`. -/
def toFormUrlEncoded (entries : List (String × JSVal)) : String :=
  "&".intercalate
    (entries.map fun kv => encodeURIComponent kv.1 ++ "=" ++ encodeURIComponent kv.2.toJSString)

/-! ## Reading a form-encoded body back

Not part of the client: the splitting and percent-decoding a receiver of the
body performs, against which `toFormUrlEncoded` is checked. -/

/-- The value of a hexadecimal digit, upper or lower case. -/
def hexValue (c : Char) : Option Nat :=
  if 48 ≤ c.toNat ∧ c.toNat ≤ 57 then some (c.toNat - 48)
  else if 65 ≤ c.toNat ∧ c.toNat ≤ 70 then some (c.toNat - 55)
  else if 97 ≤ c.toNat ∧ c.toNat ≤ 102 then some (c.toNat - 87)
  else none

/-- A unit of an escaped string: a character written as itself, or the octet
of an escape `%XY`. -/
inductive UriToken where
  | lit (c : Char) : UriToken
  | byte (b : Nat) : UriToken
  deriving DecidableEq

/-- Where the reader of escapes stands: between units, after `%`, or after
`%` and a first digit. -/
inductive EscapeState where
  | idle : EscapeState
  | percent : EscapeState
  | high (digit : Nat) : EscapeState

/-- Reads the escapes of a string; `none` when a `%` is not followed by two
hexadecimal digits. -/
def unescapeFrom : EscapeState → List Char → Option (List UriToken)
  | EscapeState.idle, [] => some []
  | EscapeState.idle, c :: rest =>
    if c = '%' then unescapeFrom EscapeState.percent rest
    else (unescapeFrom EscapeState.idle rest).map (fun ts => UriToken.lit c :: ts)
  | EscapeState.percent, c :: rest =>
    match hexValue c with
    | some a => unescapeFrom (EscapeState.high a) rest
    | none => none
  | EscapeState.high a, c :: rest =>
    match hexValue c with
    | some b => (unescapeFrom EscapeState.idle rest).map (fun ts => UriToken.byte (16 * a + b) :: ts)
    | none => none
  | EscapeState.percent, [] => none
  | EscapeState.high _, [] => none

/-- Reads UTF-8 from the octets of a unit sequence. `pending` is `none`
between characters and `some (k, acc)` when `k` continuation octets are still
due for the code point accumulated in `acc`. `none` on a malformed sequence
or a number that is no Unicode scalar value. -/
def utf8DecodeFrom : Option (Nat × Nat) → List UriToken → Option (List Char)
  | none, [] => some []
  | none, UriToken.lit c :: rest => (utf8DecodeFrom none rest).map (fun cs => c :: cs)
  | none, UriToken.byte b :: rest =>
    if b < 128 then (utf8DecodeFrom none rest).map (fun cs => Char.ofNat b :: cs)
    else if 192 ≤ b ∧ b < 224 then utf8DecodeFrom (some (1, b - 192)) rest
    else if 224 ≤ b ∧ b < 240 then utf8DecodeFrom (some (2, b - 224)) rest
    else if 240 ≤ b ∧ b < 248 then utf8DecodeFrom (some (3, b - 240)) rest
    else none
  | some (k, acc), UriToken.byte b :: rest =>
    if 128 ≤ b ∧ b < 192 then
      if k = 1 then
        if Nat.isValidChar (acc * 64 + (b - 128)) then
          (utf8DecodeFrom none rest).map (fun cs => Char.ofNat (acc * 64 + (b - 128)) :: cs)
        else none
      else utf8DecodeFrom (some (k - 1, acc * 64 + (b - 128))) rest
    else none
  | some _, UriToken.lit _ :: _ => none
  | some _, [] => none

/-- Percent-decoding of a string. -/
def percentDecode (encoded : List Char) : Option (List Char) :=
  (unescapeFrom EscapeState.idle encoded).bind (utf8DecodeFrom none)

/-- Reads one `key=value` part: split on `=`, which must give two pieces,
and percent-decode each. -/
def parseField (part : List Char) : Option (String × String) :=
  match part.splitOn '=' with
  | [key, value] =>
    match percentDecode key, percentDecode value with
    | some k, some v => some (String.mk k, String.mk v)
    | _, _ => none
  | _ => none

/-- Reads each part of a body in order; `none` when a part cannot be read. -/
def parseFields : List (List Char) → Option (List (String × String))
  | [] => some []
  | part :: rest =>
    match parseField part, parseFields rest with
    | some field, some fields => some (field :: fields)
    | _, _ => none

/-- Reads a form-encoded body: split on `&`, then read each part. -/
def parseForm (body : String) : Option (List (String × String)) :=
  parseFields (body.toList.splitOn '&')

/-- The characters `toFormUrlEncoded` writes for one pair of strings. -/
def fieldChars (p : String × String) : List Char :=
  (encodeURIComponent p.1).data ++ '=' :: (encodeURIComponent p.2).data

/-- The entries of an object whose values are strings. -/
def stringEntries (pairs : List (String × String)) : List (String × JSVal) :=
  pairs.map fun p => (p.1, JSVal.str p.2)

/-! ## FileUpload.jsx: validateFile -/

/-- What `validateFile` reads of a `File`: `size` in bytes and the MIME
`type`. -/
structure FileInfo where
  size : Nat
  type : String
  deriving DecidableEq

/-- The test `text.includes(sub)`. -/
def includesSub (sub text : List Char) : Bool :=
  text.tails.any (fun t => sub.isPrefixOf t)

/-- The list `accept.split(',')`. -/
def acceptedTypes (accept : String) : List (List Char) :=
  accept.toList.splitOn ','

/-- The text `type.split('/')[0]`. -/
def baseType (type : List Char) : List Char :=
  (type.splitOn '/').headD []

/-- The callback of `acceptedTypes.some(...)` (FileUpload.jsx lines 31-38). -/
def typeMatches (fileType : List Char) (type : List Char) : Bool :=
  if includesSub ['/', '*'] type then
    (baseType type ++ ['/']).isPrefixOf fileType
  else
    decide (type = fileType)

/-- The text set by `setError` for a file over the limit. -/
def sizeLimitMessage (maxSize : Nat) : String :=
  "File size exceeds the " ++ toString maxSize ++ "MB limit"

/-- Model of `validateFile` (FileUpload.jsx lines 20-46) for the props
`accept` and `maxSize`, a whole number of megabytes. The second component is
the text passed to `setError`, `none` when it is not called. -/
def validateFile (accept : String) (maxSize : Nat) (file : FileInfo) : Bool × Option String :=
  if file.size > maxSize * 1024 * 1024 then
    (false, some (sizeLimitMessage maxSize))
  else if (acceptedTypes accept).any (typeMatches file.type.toList) then
    (true, none)
  else
    (false, some "File type not accepted")

/-- The default of the prop `accept`. -/
def defaultAccept : String := "image/*,application/pdf"

/-- The default of the prop `maxSize`. -/
def defaultMaxSize : Nat := 10

/-! ## The axios instance and its interceptors -/

/-- The body of a request: a form-encoded string or a JSON value. -/
inductive RequestBody where
  | form (encoded : String) : RequestBody
  | json (value : JSVal) : RequestBody
  deriving DecidableEq

/-- The request configuration seen by the request interceptor and sent. -/
structure RequestConfig where
  url : String
  data : RequestBody
  headers : List (String × String)
  deriving DecidableEq

/-- Assignment `headers[name] = value`. -/
def setHeader (headers : List (String × String)) (name value : String) :
    List (String × String) :=
  (name, value) :: headers.filter (fun h => h.1 != name)

/-- Model of the request interceptor (api.js lines 11-18). -/
def requestInterceptor (config : RequestConfig) (st : Storage) : RequestConfig :=
  let token := st.getItem "token"
  if tokenTruthy token then
    { config with headers := setHeader config.headers "Authorization"
                               ("Bearer " ++ token.getD "") }
  else config

/-- Model of the success handler of the response interceptor (api.js line 24). -/
def responseInterceptorFulfilled (response : Response) : Response :=
  response

/-- Model of `api.post(url, data, config)`: the request passes the request
interceptor, `http` stands for the transport and the server (`Except.error`
is a rejected request), and the outcome passes the response interceptor. -/
def apiPost (http : RequestConfig → Except ApiError Response) (st : Storage)
    (config : RequestConfig) : Except ApiError Response × Storage :=
  match http (requestInterceptor config st) with
  | Except.ok response => (Except.ok (responseInterceptorFulfilled response), st)
  | Except.error error =>
    (Except.error (responseInterceptorRejected error st).1,
     (responseInterceptorRejected error st).2)

/-! ## api.js: login, signup, logout, isAuthenticated -/

/-- The argument of `login`: the properties `username`, `email`, `password`,
each `undefined` when missing. -/
structure Credentials where
  username : JSVal
  email : JSVal
  password : JSVal
  deriving DecidableEq

/-- The argument of `signup`. -/
structure UserData where
  username : JSVal
  email : JSVal
  password : JSVal
  deriving DecidableEq

/-- The request configuration built by `login` (api.js lines 65-75). -/
def loginConfig (credentials : Credentials) : RequestConfig :=
  { url := "/auth/login",
    data := RequestBody.form (toFormUrlEncoded
      [("username", credentials.username.or credentials.email),
       ("password", credentials.password)]),
    headers := [("Content-Type", "application/x-www-form-urlencoded")] }

/-- The request configuration built by `signup` (api.js lines 91-96). -/
def signupConfig (userData : UserData) : RequestConfig :=
  { url := "/auth/signup",
    data := RequestBody.json (JSVal.obj
      [("name", userData.username), ("username", userData.username),
       ("email", userData.email), ("password", userData.password)]),
    headers := [("Content-Type", "application/json")] }

/-- Model of `login` of api.js (lines 62-87). The result is `response.data`
or the thrown `Error`. -/
def Api.login (http : RequestConfig → Except ApiError Response) (credentials : Credentials)
    (st : Storage) : Except ApiError JSVal × Storage :=
  match apiPost http st (loginConfig credentials) with
  | (Except.ok response, st1) =>
    match response.data.prop "access_token" with
    | Except.ok accessToken =>
      let st2 := if accessToken.truthy then st1.setItem "token" accessToken.toJSString else st1
      (Except.ok response.data, st2)
    | Except.error error =>
      (Except.error (newError (extractErrorMessage error (JSVal.str "Login failed"))), st1)
  | (Except.error error, st1) =>
    (Except.error (newError (extractErrorMessage error (JSVal.str "Login failed"))), st1)

/-- Model of `signup` of api.js (lines 89-102). -/
def Api.signup (http : RequestConfig → Except ApiError Response) (userData : UserData)
    (st : Storage) : Except ApiError JSVal × Storage :=
  match apiPost http st (signupConfig userData) with
  | (Except.ok response, st1) => (Except.ok response.data, st1)
  | (Except.error error, st1) =>
    (Except.error (newError (extractErrorMessage error (JSVal.str "Signup failed"))), st1)

/-- Model of `logout` of api.js (lines 126-128). -/
def Api.logout (st : Storage) : Storage :=
  st.removeItem "token"

/-- Model of `isAuthenticated` of api.js (lines 131-133). -/
def Api.isAuthenticated (st : Storage) : Bool :=
  tokenTruthy (st.getItem "token")

/-! ## AuthContext.jsx: login, signup, logout -/

/-- The message chosen in the `catch` blocks of `login` and `signup`
(AuthContext.jsx lines 48-56 and 73-81). -/
def catchMessage (err : ApiError) (fallback : String) : JSVal :=
  if err.message.truthy then err.message
  else if (err.dataField "detail").truthy then err.dataField "detail"
  else JSVal.str fallback

/-- The call `jwtDecode(v)` followed by the read of `.sub` in `login`:
`tokenError v` is the error thrown when `v` is not a string or does not
decode. -/
def decodeValue (jwtDecode : String → Option Claims) (tokenError : JSVal → ApiError)
    (v : JSVal) : Except ApiError Claims :=
  match v with
  | JSVal.str t =>
    match jwtDecode t with
    | some decoded => Except.ok decoded
    | none => Except.error (tokenError v)
  | _ => Except.error (tokenError v)

/-- The `catch` block of `login` (AuthContext.jsx lines 46-61). -/
def loginCatch (err : ApiError) (s : AuthState) : Except ApiError Bool × AuthState :=
  (Except.ok false, { s with error := catchMessage err "Failed to login", loading := false })

/-- Model of `login` of AuthContext.jsx (lines 35-62). The first component
is the value the promise resolves to, or the error it rejects with. -/
def login (jwtDecode : String → Option Claims) (tokenError : JSVal → ApiError)
    (http : RequestConfig → Except ApiError Response) (credentials : Credentials)
    (s : AuthState) : Except ApiError Bool × AuthState :=
  let s0 : AuthState := { s with loading := true, error := JSVal.null }
  match Api.login http credentials s0.storage with
  | (Except.ok response, st1) =>
    match response.prop "access_token" with
    | Except.ok accessToken =>
      let st2 := st1.setItem "token" accessToken.toJSString
      match decodeValue jwtDecode tokenError accessToken with
      | Except.ok decoded =>
        (Except.ok true,
         { s0 with storage := st2, user := some { username := decoded.sub }, loading := false })
      | Except.error err => loginCatch err { s0 with storage := st2 }
    | Except.error err => loginCatch err { s0 with storage := st1 }
  | (Except.error err, st1) => loginCatch err { s0 with storage := st1 }

/-- Model of `signup` of AuthContext.jsx (lines 64-87). -/
def signup (http : RequestConfig → Except ApiError Response) (userData : UserData)
    (s : AuthState) : Except ApiError JSVal × AuthState :=
  let s0 : AuthState := { s with loading := true, error := JSVal.null }
  match Api.signup http userData s0.storage with
  | (Except.ok response, st1) =>
    (Except.ok response, { s0 with storage := st1, loading := false })
  | (Except.error err, st1) =>
    (Except.error (newError (catchMessage err "Failed to sign up")),
     { s0 with storage := st1, error := catchMessage err "Failed to sign up", loading := false })

/-- Model of `logout` of AuthContext.jsx (lines 89-93). -/
def logout (s : AuthState) : AuthState :=
  { s with storage := s.storage.removeItem "token", user := none, error := JSVal.null }

/-! ## AuthForm.jsx: handleSignupSubmit -/

/-- The `signupData` state of the form: the four input values. -/
structure SignupData where
  username : String
  email : String
  password : String
  confirmPassword : String
  deriving DecidableEq

/-- The state of `AuthForm` that `handleSignupSubmit` writes. -/
structure FormState where
  activeTab : String
  loading : Bool
  error : JSVal
  deriving DecidableEq

/-- What a run of `handleSignupSubmit` leaves behind: the form state, the
session, the target of `navigate` if it was called, and how often the
context functions `signup` and `login` were called. -/
structure SubmitResult where
  form : FormState
  auth : AuthState
  navigated : Option String
  signupCalls : Nat
  loginCalls : Nat
  deriving DecidableEq

/-- Model of `handleSignupSubmit` (AuthForm.jsx lines 75-122). `authError` is
the context error captured by the render that created the handler. -/
def handleSignupSubmit (jwtDecode : String → Option Claims) (tokenError : JSVal → ApiError)
    (http : RequestConfig → Except ApiError Response) (authError : JSVal)
    (signupData : SignupData) (form : FormState) (auth : AuthState) : SubmitResult :=
  let form1 : FormState := { form with loading := true, error := JSVal.str "" }
  if signupData.username = "" ∨ signupData.email = "" ∨ signupData.password = "" ∨
      signupData.confirmPassword = "" then
    { form := { form1 with error := JSVal.str "All fields are required", loading := false },
      auth := auth, navigated := none, signupCalls := 0, loginCalls := 0 }
  else if signupData.password ≠ signupData.confirmPassword then
    { form := { form1 with error := JSVal.str "Passwords do not match", loading := false },
      auth := auth, navigated := none, signupCalls := 0, loginCalls := 0 }
  else
    match signup http
        { username := JSVal.str signupData.username, email := JSVal.str signupData.email,
          password := JSVal.str signupData.password } auth with
    | (Except.ok result, auth1) =>
      if result.truthy then
        match login jwtDecode tokenError http
            { username := JSVal.str signupData.username, email := JSVal.undefined,
              password := JSVal.str signupData.password } auth1 with
        | (Except.ok true, auth2) =>
          { form := { form1 with loading := false }, auth := auth2,
            navigated := some "/dashboard", signupCalls := 1, loginCalls := 1 }
        | (Except.ok false, auth2) =>
          { form := { form1 with activeTab := "login",
                                 error := JSVal.str "Registration successful. Please log in.",
                                 loading := false },
            auth := auth2, navigated := none, signupCalls := 1, loginCalls := 1 }
        | (Except.error err, auth2) =>
          { form := { form1 with
                        error := err.message.or (JSVal.str "Signup failed. Please try again."),
                        loading := false },
            auth := auth2, navigated := none, signupCalls := 1, loginCalls := 1 }
      else
        { form := { form1 with
                      error := authError.or (JSVal.str "Signup failed. Please try again."),
                      loading := false },
          auth := auth1, navigated := none, signupCalls := 1, loginCalls := 0 }
    | (Except.error err, auth1) =>
      { form := { form1 with
                    error := err.message.or (JSVal.str "Signup failed. Please try again."),
                    loading := false },
        auth := auth1, navigated := none, signupCalls := 1, loginCalls := 0 }

/-! ## Sessions as sequences of operations -/

/-- One operation on the session, with the outcome of the request it makes. -/
inductive Action where
  | login (credentials : Credentials) (outcome : Except ApiError Response) : Action
  | signup (userData : UserData) (outcome : Except ApiError Response) : Action
  | logout : Action
  | checkAuth (nowMs : Nat) : Action
  | request (outcome : Except ApiError Response) : Action

/-- The outcome is an error carrying a response of status 401. -/
def is401 (outcome : Except ApiError Response) : Bool :=
  match outcome with
  | Except.error error =>
    match error.response with
    | some r => decide (r.status = 401)
    | none => false
  | Except.ok _ => false

/-- The request made by the action, if any, was answered with status 401. -/
def Action.rejected401 : Action → Bool
  | Action.login _ outcome => is401 outcome
  | Action.signup _ outcome => is401 outcome
  | Action.request outcome => is401 outcome
  | Action.logout => false
  | Action.checkAuth _ => false

/-- The session after one operation. A `request` is any other call through
`api` (such as `extractMedicine`): it touches the session only through the
response interceptor. -/
def step (jwtDecode : String → Option Claims) (tokenError : JSVal → ApiError)
    (s : AuthState) (a : Action) : AuthState :=
  match a with
  | Action.login credentials outcome =>
    (login jwtDecode tokenError (fun _ => outcome) credentials s).2
  | Action.signup userData outcome => (signup (fun _ => outcome) userData s).2
  | Action.logout => logout s
  | Action.checkAuth nowMs => (checkAuth jwtDecode nowMs s).2
  | Action.request outcome =>
    match outcome with
    | Except.ok _ => s
    | Except.error error => afterFailedRequest error s

/-- The session after a sequence of operations. -/
def run (jwtDecode : String → Option Claims) (tokenError : JSVal → ApiError)
    (s : AuthState) (actions : List Action) : AuthState :=
  actions.foldl (step jwtDecode tokenError) s

/-- No request of the run is answered with status 401 while an identity is
set: at each step the action is not rejected with 401 or `user` is null. -/
def no401WhileIdentified (jwtDecode : String → Option Claims) (tokenError : JSVal → ApiError) :
    AuthState → List Action → Bool
  | _, [] => true
  | s, a :: rest =>
    (!a.rejected401 || !s.user.isSome) &&
      no401WhileIdentified jwtDecode tokenError (step jwtDecode tokenError s a) rest

/-- The state of a freshly mounted `AuthProvider` over the stored data. -/
def initialState (storage : Storage) : AuthState :=
  { storage := storage, user := none, loading := true, error := JSVal.null }

/-- The identity is backed by storage: `user` is non-null only if some string
is stored under `token`. -/
def tokenBacksIdentity (s : AuthState) : Bool :=
  !s.user.isSome || (s.storage.getItem "token").isSome

/-! ## Concrete data used in evaluations -/

/-- A decoder defined on three token strings and failing elsewhere. -/
def sampleDecode (token : String) : Option Claims :=
  if token = "alice.jwt" then some { sub := JSVal.str "alice", exp := some 2000000000 }
  else if token = "old.jwt" then some { sub := JSVal.str "bob", exp := some 1000 }
  else if token = "epoch.jwt" then some { sub := JSVal.str "carol", exp := some 0 }
  else none

/-- A clock value, in milliseconds, between the expiry times of the samples. -/
def sampleNow : Nat := 1700000000000

/-- A session holding `token` with identity `user`. -/
def sessionWith (token : String) (user : Option User) : AuthState :=
  { storage := [("theme", "dark"), ("token", token)], user := user, loading := true,
    error := JSVal.null }

/-- The identity of alice. -/
def alice : User := { username := JSVal.str "alice" }

/-- An axios error for a response with status 401 and a `detail` body. -/
def rejected401 : ApiError :=
  { response := some { status := 401,
                       data := JSVal.obj [("detail", JSVal.str "Could not validate credentials")] },
    message := JSVal.str "Request failed with status code 401" }

/-- A 400 response whose body has an empty `detail` and a `message`. -/
def emptyDetailError : ApiError :=
  { response := some { status := 400,
                       data := JSVal.obj [("detail", JSVal.str ""),
                                          ("message", JSVal.str "Invalid input")] },
    message := JSVal.str "Request failed with status code 400" }

/-- A 500 response whose body has no `detail` and an empty `message`. -/
def emptyMessageError : ApiError :=
  { response := some { status := 500, data := JSVal.obj [("message", JSVal.str "")] },
    message := JSVal.str "Request failed with status code 500" }

/-- A 400 response whose body has a `message` and no `detail`. -/
def messageOnlyError : ApiError :=
  { response := some { status := 400,
                       data := JSVal.obj [("message", JSVal.str "Invalid input")] },
    message := JSVal.str "Request failed with status code 400" }

/-- A timeout: no response object, axios message naming the timeout. -/
def timeoutError : ApiError :=
  { response := none, message := JSVal.str "timeout of 10000ms exceeded" }

/-- A connection failure as axios reports it: no response, "Network Error". -/
def networkError : ApiError :=
  { response := none, message := JSVal.str "Network Error" }

/-- An error that has a response with an empty body and the message
"Network Error". -/
def networkTextWithResponse : ApiError :=
  { response := some { status := 502, data := JSVal.obj [] },
    message := JSVal.str "Network Error" }

/-- A 500 response with an empty body and the usual axios message. -/
def plainServerError : ApiError :=
  { response := some { status := 500, data := JSVal.obj [] },
    message := JSVal.str "Request failed with status code 500" }

/-- A 422 response whose `detail` is the empty array. -/
def emptyArrayDetailError : ApiError :=
  { response := some { status := 422, data := JSVal.obj [("detail", JSVal.arr [])] },
    message := JSVal.str "Request failed with status code 422" }

/-- A 422 response whose `detail` is a structured value, not a string. -/
def structuredDetailError : ApiError :=
  { response := some { status := 422,
                       data := JSVal.obj [("detail",
                         JSVal.obj [("msg", JSVal.str "field required")])] },
    message := JSVal.str "Request failed with status code 422" }

/-- The error a sample `jwtDecode` throws on a value it rejects. -/
def sampleTokenError (_ : JSVal) : ApiError :=
  { response := none, message := JSVal.str "Invalid token specified" }

/-- Credentials of alice as typed into the login form. -/
def aliceCredentials : Credentials :=
  { username := JSVal.str "alice", email := JSVal.undefined, password := JSVal.str "wrong" }

/-- Credentials of bob. -/
def bobCredentials : Credentials :=
  { username := JSVal.str "bob", email := JSVal.undefined, password := JSVal.str "secret" }

/-- The data of a signup of alice. -/
def aliceSignup : UserData :=
  { username := JSVal.str "alice", email := JSVal.str "alice@example.org",
    password := JSVal.str "secret" }

/-- The form inputs of a signup of alice. -/
def aliceForm : SignupData :=
  { username := "alice", email := "alice@example.org", password := "secret",
    confirmPassword := "secret" }

/-- The 400 response of the signup endpoint to a duplicate user. -/
def userExists400 : ApiError :=
  { response := some { status := 400,
                       data := JSVal.obj [("detail", JSVal.str "User already exists")] },
    message := JSVal.str "Request failed with status code 400" }

/-- The form as first rendered on the signup tab. -/
def signupTab : FormState :=
  { activeTab := "signup", loading := false, error := JSVal.str "" }

/-- The configuration of an upload request before the interceptor. -/
def uploadConfig : RequestConfig :=
  { url := "/medicine/extract", data := RequestBody.json JSVal.null,
    headers := [("Content-Type", "multipart/form-data")] }

/-- A session of alice: a login rejected with 401 for a wrong password, a
login that succeeds, an identity check and an upload that times out. -/
def aliceDay : List Action :=
  [Action.login { username := JSVal.str "alice", email := JSVal.undefined,
                  password := JSVal.str "wrong" }
     (Except.error
       { response := some { status := 401,
                            data := JSVal.obj [("detail", JSVal.str "Incorrect username or password")] },
         message := JSVal.str "Request failed with status code 401" }),
   Action.login { username := JSVal.str "alice", email := JSVal.undefined,
                  password := JSVal.str "secret" }
     (Except.ok { status := 200,
                  data := JSVal.obj [("access_token", JSVal.str "alice.jwt")] }),
   Action.checkAuth 1700000000000,
   Action.request (Except.error { response := none,
                                  message := JSVal.str "timeout of 10000ms exceeded" })]

/-- A login of alice followed by an upload that is answered with 401. -/
def aliceRejected : List Action :=
  [Action.login { username := JSVal.str "alice", email := JSVal.undefined,
                  password := JSVal.str "secret" }
     (Except.ok { status := 200,
                  data := JSVal.obj [("access_token", JSVal.str "alice.jwt")] }),
   Action.request (Except.error
     { response := some { status := 401, data := JSVal.obj [] },
       message := JSVal.str "Request failed with status code 401" })]

/-- A 403 response. -/
def forbidden403 : ApiError :=
  { response := some { status := 403, data := JSVal.obj [("detail", JSVal.str "Forbidden")] },
    message := JSVal.str "Request failed with status code 403" }

/-- The 201 response of the signup endpoint for alice. -/
def createdAlice : Response :=
  { status := 201,
    data := JSVal.obj [("id", JSVal.num 7 (by decide)), ("username", JSVal.str "alice")] }

/-- A server that creates the user on signup and answers every other
request, the login included, with 401. -/
def signupOnlyServer (request : RequestConfig) : Except ApiError Response :=
  if request.url = "/auth/signup" then
    Except.ok { status := 201, data := JSVal.obj [("username", JSVal.str "alice")] }
  else
    Except.error
      { response := some { status := 401,
                           data := JSVal.obj [("detail", JSVal.str "Incorrect username or password")] },
        message := JSVal.str "Request failed with status code 401" }

/-- The 401 response of the login endpoint to a wrong password. -/
def wrongPassword401 : ApiError :=
  { response := some { status := 401,
                       data := JSVal.obj [("detail", JSVal.str "Incorrect username or password")] },
    message := JSVal.str "Request failed with status code 401" }

/-- A successful login response carrying `token`. -/
def tokenResponse (token : String) : Response :=
  { status := 200,
    data := JSVal.obj [("access_token", JSVal.str token), ("token_type", JSVal.str "bearer")] }

/-- A session whose storage has no token but whose identity is still set. -/
def staleSession : AuthState :=
  { storage := [("theme", "dark")], user := some { username := JSVal.str "alice" },
    loading := false, error := JSVal.null }

end MediScan

namespace MediScan

/-! ## Storage lemmas -/

theorem Storage.getItem_removeItem_self (st : Storage) (key : String) :
    (st.removeItem key).getItem key = none := by
  induction st with
  | nil => rfl
  | cons p rest ih =>
    obtain ⟨k, v⟩ := p
    unfold Storage.removeItem Storage.getItem at *
    by_cases h : k = key
    · subst h
      simpa [List.filter] using ih
    · have h1 : (k != key) = true := by simpa using h
      have h2 : (key == k) = false := by
        simpa using fun e : key = k => h e.symm
      simp only [List.filter_cons, h1, if_true, List.lookup_cons, h2]
      exact ih

theorem tokenTruthy_some {t : String} (h : t ≠ "") : tokenTruthy (some t) = true := by
  simp [tokenTruthy, h]

theorem isExpired_of_later {c : Claims} {e : Int} {nowMs : Nat} (hexp : c.exp = some e)
    (hlater : (nowMs : Int) < e * 1000) : isExpired c nowMs = false := by
  have h : ¬ e * 1000 < (nowMs : Int) := not_lt.mpr (le_of_lt hlater)
  simp [isExpired, hexp, h]

theorem isExpired_of_earlier {c : Claims} {e : Int} {nowMs : Nat} (hexp : c.exp = some e)
    (hne : e ≠ 0) (hearlier : e * 1000 < (nowMs : Int)) : isExpired c nowMs = true := by
  simp [isExpired, hexp, hne, hearlier]

/-! ## checkAuth -/

/-- C1: a stored token that decodes successfully and whose expiry claim is later
than the current time makes `checkAuth` return normally with the identity set
to the token's `sub` claim and the storage unchanged. The decoder is any
function that, like `jwtDecode`, rejects the empty string. -/
theorem checkAuth_valid_token (jwtDecode : String → Option Claims) (nowMs : Nat)
    (s : AuthState) (t : String) (c : Claims) (e : Int)
    (hempty : jwtDecode "" = none)
    (hstored : s.storage.getItem "token" = some t)
    (hdec : jwtDecode t = some c)
    (hexp : c.exp = some e)
    (hlater : (nowMs : Int) < e * 1000) :
    (checkAuth jwtDecode nowMs s).1 = Except.ok () ∧
    (checkAuth jwtDecode nowMs s).2.user = some { username := c.sub } ∧
    (checkAuth jwtDecode nowMs s).2.isAuthenticated = true ∧
    (checkAuth jwtDecode nowMs s).2.storage = s.storage := by
  have hne : t ≠ "" := by
    intro h
    rw [h, hempty] at hdec
    exact Option.noConfusion hdec
  have hx := isExpired_of_later hexp hlater
  simp [checkAuth, hstored, tokenTruthy_some hne, hdec, hx, AuthState.isAuthenticated]

/-- Witness of C1 on the sample token of alice. -/
theorem checkAuth_valid_token_witness :
    (sessionWith "alice.jwt" none).storage.getItem "token" = some "alice.jwt" ∧
    ((sampleNow : Nat) : Int) < 2000000000 * 1000 ∧
    (checkAuth sampleDecode sampleNow (sessionWith "alice.jwt" none)).2.user
      = some { username := JSVal.str "alice" } ∧
    (checkAuth sampleDecode sampleNow (sessionWith "alice.jwt" none)).2.storage
      = (sessionWith "alice.jwt" none).storage :=
  have h := checkAuth_valid_token sampleDecode sampleNow (sessionWith "alice.jwt" none)
    "alice.jwt" { sub := JSVal.str "alice", exp := some 2000000000 } 2000000000
    (by decide) (by decide) (by decide) rfl (by decide)
  ⟨by decide, by decide, h.2.1, h.2.2.2⟩

/-- C2, as stated, fails: the sample token of carol decodes, its expiry claim 0
(1970-01-01) is earlier than the clock, yet the identity is set and the token
stays stored. -/
theorem checkAuth_expired_counterexample :
    (sessionWith "epoch.jwt" none).storage.getItem "token" = some "epoch.jwt" ∧
    sampleDecode "epoch.jwt" = some { sub := JSVal.str "carol", exp := some 0 } ∧
    (0 : Int) * 1000 < (sampleNow : Int) ∧
    (checkAuth sampleDecode sampleNow (sessionWith "epoch.jwt" none)).2.user
      = some { username := JSVal.str "carol" } ∧
    (checkAuth sampleDecode sampleNow (sessionWith "epoch.jwt" none)).2.storage.getItem "token"
      = some "epoch.jwt" := by
  decide

/-- C2 (amended): a stored token that decodes successfully and whose expiry
claim is non-zero and earlier than the current time makes `checkAuth` return
normally with a null identity and no token left in storage. -/
theorem checkAuth_expired_token (jwtDecode : String → Option Claims) (nowMs : Nat)
    (s : AuthState) (t : String) (c : Claims) (e : Int)
    (hempty : jwtDecode "" = none)
    (hstored : s.storage.getItem "token" = some t)
    (hdec : jwtDecode t = some c)
    (hexp : c.exp = some e)
    (hne : e ≠ 0)
    (hearlier : e * 1000 < (nowMs : Int)) :
    (checkAuth jwtDecode nowMs s).1 = Except.ok () ∧
    (checkAuth jwtDecode nowMs s).2.user = none ∧
    (checkAuth jwtDecode nowMs s).2.isAuthenticated = false ∧
    (checkAuth jwtDecode nowMs s).2.storage.getItem "token" = none := by
  have ht : t ≠ "" := by
    intro h
    rw [h, hempty] at hdec
    exact Option.noConfusion hdec
  have hx := isExpired_of_earlier hexp hne hearlier
  simp [checkAuth, hstored, tokenTruthy_some ht, hdec, hx, AuthState.isAuthenticated,
    Storage.getItem_removeItem_self]

/-- Witness of C2 (amended) on the sample token of bob, expired at second 1000. -/
theorem checkAuth_expired_token_witness :
    (sessionWith "old.jwt" (some alice)).storage.getItem "token" = some "old.jwt" ∧
    (1000 : Int) * 1000 < (sampleNow : Int) ∧
    (checkAuth sampleDecode sampleNow (sessionWith "old.jwt" (some alice))).2.user = none ∧
    (checkAuth sampleDecode sampleNow (sessionWith "old.jwt" (some alice))).2.storage.getItem
      "token" = none :=
  have h := checkAuth_expired_token sampleDecode sampleNow (sessionWith "old.jwt" (some alice))
    "old.jwt" { sub := JSVal.str "bob", exp := some 1000 } 1000
    (by decide) (by decide) (by decide) rfl (by decide) (by decide)
  ⟨by decide, by decide, h.2.1, h.2.2.2⟩

/-- C3, as stated, fails: the empty string is a stored token on which decoding
fails, yet `checkAuth` neither removes it nor resets the identity. -/
theorem checkAuth_undecodable_counterexample :
    (sessionWith "" (some alice)).storage.getItem "token" = some "" ∧
    sampleDecode "" = none ∧
    (checkAuth sampleDecode sampleNow (sessionWith "" (some alice))).2.storage.getItem "token"
      = some "" ∧
    (checkAuth sampleDecode sampleNow (sessionWith "" (some alice))).2.user = some alice := by
  decide

/-- C3 (amended): for every non-empty stored token on which decoding fails,
`checkAuth` returns normally, removes the token and leaves a null identity. -/
theorem checkAuth_undecodable_token (jwtDecode : String → Option Claims) (nowMs : Nat)
    (s : AuthState) (t : String)
    (hstored : s.storage.getItem "token" = some t)
    (hne : t ≠ "")
    (hdec : jwtDecode t = none) :
    (checkAuth jwtDecode nowMs s).1 = Except.ok () ∧
    (checkAuth jwtDecode nowMs s).2.user = none ∧
    (checkAuth jwtDecode nowMs s).2.isAuthenticated = false ∧
    (checkAuth jwtDecode nowMs s).2.storage.getItem "token" = none := by
  simp [checkAuth, hstored, tokenTruthy_some hne, hdec, AuthState.isAuthenticated,
    Storage.getItem_removeItem_self]

/-- Witness of C3 (amended) on a string the sample decoder rejects. -/
theorem checkAuth_undecodable_token_witness :
    (sessionWith "garbage" (some alice)).storage.getItem "token" = some "garbage" ∧
    sampleDecode "garbage" = none ∧
    (checkAuth sampleDecode sampleNow (sessionWith "garbage" (some alice))).2.user = none ∧
    (checkAuth sampleDecode sampleNow (sessionWith "garbage" (some alice))).2.storage.getItem
      "token" = none :=
  have h := checkAuth_undecodable_token sampleDecode sampleNow
    (sessionWith "garbage" (some alice)) "garbage" (by decide) (by decide) (by decide)
  ⟨by decide, by decide, h.2.1, h.2.2.2⟩

/-- C4: evaluation at the failing input. With no token stored and the identity
of alice still held, `checkAuth` leaves the identity in place, so the session
stays authenticated. -/
theorem checkAuth_no_token_keeps_identity :
    staleSession.storage.getItem "token" = none ∧
    (checkAuth sampleDecode sampleNow staleSession).2.user = some alice ∧
    (checkAuth sampleDecode sampleNow staleSession).2.isAuthenticated = true := by
  decide

/-- C5: evaluation at the failing input. An authenticated session receives a
401 response: the interceptor removes the token, and the following `checkAuth`
still reports the identity of alice. -/
theorem checkAuth_after_401_keeps_identity :
    (afterFailedRequest rejected401 (sessionWith "alice.jwt" (some alice))).storage.getItem
      "token" = none ∧
    (checkAuth sampleDecode sampleNow
      (afterFailedRequest rejected401 (sessionWith "alice.jwt" (some alice)))).2.user
      = some alice ∧
    (checkAuth sampleDecode sampleNow
      (afterFailedRequest rejected401 (sessionWith "alice.jwt" (some alice)))).2.isAuthenticated
      = true := by
  decide

/-! ## extractErrorMessage -/

theorem JSVal.eq_str_of_truthy_isString {v : JSVal} (ht : v.truthy = true)
    (hs : v.isString = true) : ∃ m : String, v = JSVal.str m ∧ m ≠ "" := by
  cases v with
  | str m => exact ⟨m, rfl, by simpa [JSVal.truthy] using ht⟩
  | undefined => simp [JSVal.isString] at hs
  | null => simp [JSVal.isString] at hs
  | bool b => simp [JSVal.isString] at hs
  | num n => simp [JSVal.isString] at hs
  | arr items => simp [JSVal.isString] at hs
  | obj fields => simp [JSVal.isString] at hs

/-- C6, as stated, fails: the body carries a `detail` field (the empty string)
and the function returns the body's `message` instead of that detail. -/
theorem extractErrorMessage_detail_counterexample :
    emptyDetailError.dataField "detail" = JSVal.str "" ∧
    extractErrorMessage emptyDetailError (JSVal.str "Login failed")
      = JSVal.str "Invalid input" ∧
    extractErrorMessage emptyDetailError (JSVal.str "Login failed")
      ≠ emptyDetailError.dataField "detail" := by
  decide

/-- C6 (amended): when the response body carries a truthy `detail` field (for
a string: non-empty), `extractErrorMessage` returns that detail verbatim,
whatever the body's other fields, the error's own message and the default. -/
theorem extractErrorMessage_detail (error : ApiError) (r : Response)
    (fields : List (String × JSVal)) (d defaultMessage : JSVal)
    (hresp : error.response = some r)
    (hbody : r.data = JSVal.obj fields)
    (hdetail : fields.lookup "detail" = some d)
    (htruthy : d.truthy = true) :
    extractErrorMessage error defaultMessage = d := by
  have h : error.dataField "detail" = d := by
    simp [ApiError.dataField, hresp, hbody, JSVal.get, hdetail]
  simp [extractErrorMessage, h, htruthy]

/-- Witness of C6 (amended): the detail of the 401 sample wins over the axios
message and the default. -/
theorem extractErrorMessage_detail_witness :
    extractErrorMessage rejected401 (JSVal.str "Login failed")
      = JSVal.str "Could not validate credentials" :=
  extractErrorMessage_detail rejected401
    { status := 401,
      data := JSVal.obj [("detail", JSVal.str "Could not validate credentials")] }
    [("detail", JSVal.str "Could not validate credentials")]
    (JSVal.str "Could not validate credentials")
    (JSVal.str "Login failed") rfl rfl (by decide) (by decide)

/-- C7, as stated, fails: the body carries no `detail` and a `message` field
(the empty string), and the function returns the error's own text instead. -/
theorem extractErrorMessage_message_counterexample :
    emptyMessageError.dataField "detail" = JSVal.undefined ∧
    emptyMessageError.dataField "message" = JSVal.str "" ∧
    extractErrorMessage emptyMessageError (JSVal.str "Signup failed")
      = JSVal.str "Request failed with status code 500" ∧
    extractErrorMessage emptyMessageError (JSVal.str "Signup failed")
      ≠ emptyMessageError.dataField "message" := by
  decide

/-- C7 (amended): when the response body carries no `detail` field and a
truthy `message` field (for a string: non-empty), `extractErrorMessage`
returns that `message` field, whatever the error's own message and the
default. -/
theorem extractErrorMessage_message (error : ApiError) (r : Response)
    (fields : List (String × JSVal)) (m defaultMessage : JSVal)
    (hresp : error.response = some r)
    (hbody : r.data = JSVal.obj fields)
    (hdetail : fields.lookup "detail" = none)
    (hmessage : fields.lookup "message" = some m)
    (htruthy : m.truthy = true) :
    extractErrorMessage error defaultMessage = m := by
  have h1 : error.dataField "detail" = JSVal.undefined := by
    simp [ApiError.dataField, hresp, hbody, JSVal.get, hdetail]
  have h2 : error.dataField "message" = m := by
    simp [ApiError.dataField, hresp, hbody, JSVal.get, hmessage]
  have h3 : JSVal.undefined.truthy = false := rfl
  simp [extractErrorMessage, h1, h2, h3, htruthy]

/-- Witness of C7 (amended). -/
theorem extractErrorMessage_message_witness :
    extractErrorMessage messageOnlyError (JSVal.str "Signup failed")
      = JSVal.str "Invalid input" :=
  extractErrorMessage_message messageOnlyError
    { status := 400, data := JSVal.obj [("message", JSVal.str "Invalid input")] }
    [("message", JSVal.str "Invalid input")]
    (JSVal.str "Invalid input")
    (JSVal.str "Signup failed") rfl rfl (by decide) (by decide) (by decide)

/-- C8, as stated, fails: a timeout has no response object, and the function
returns the raw text carried by the error, not the connectivity message. -/
theorem extractErrorMessage_transport_counterexample :
    timeoutError.response = none ∧
    extractErrorMessage timeoutError (JSVal.str "Failed to extract medicine details")
      = timeoutError.message ∧
    extractErrorMessage timeoutError (JSVal.str "Failed to extract medicine details")
      ≠ JSVal.str connectivityMessage := by
  decide

/-- C8 (amended): for every failure that has no response object and whose
message is exactly "Network Error", `extractErrorMessage` returns the fixed
connectivity message, which differs from the raw text carried by the error. -/
theorem extractErrorMessage_network_error (error : ApiError) (defaultMessage : JSVal)
    (hresp : error.response = none)
    (hmsg : error.message = JSVal.str "Network Error") :
    extractErrorMessage error defaultMessage = JSVal.str connectivityMessage ∧
    extractErrorMessage error defaultMessage ≠ error.message := by
  have h1 : ∀ key, error.dataField key = JSVal.undefined := by
    intro key
    simp [ApiError.dataField, hresp]
  have h2 : JSVal.undefined.truthy = false := rfl
  have h3 : (JSVal.str "Network Error").truthy = true := by decide
  have h4 : (JSVal.str "Network Error").strictEqStr "Network Error" = true := by decide
  have h5 : extractErrorMessage error defaultMessage = JSVal.str connectivityMessage := by
    simp [extractErrorMessage, h1, h2, hmsg, h3, h4]
  refine ⟨h5, ?_⟩
  rw [h5, hmsg]
  decide

/-- Witness of C8 (amended) on the axios connection failure. -/
theorem extractErrorMessage_network_error_witness :
    networkError.response = none ∧
    extractErrorMessage networkError (JSVal.str "Login failed")
      = JSVal.str connectivityMessage :=
  ⟨rfl, (extractErrorMessage_network_error networkError (JSVal.str "Login failed") rfl rfl).1⟩

/-- C9, as stated, fails: the error has a response whose body carries neither
`detail` nor `message`, it has descriptive text of its own, and the function
returns the connectivity message instead of that text. -/
theorem extractErrorMessage_fallback_counterexample :
    networkTextWithResponse.response.isSome = true ∧
    networkTextWithResponse.dataField "detail" = JSVal.undefined ∧
    networkTextWithResponse.dataField "message" = JSVal.undefined ∧
    networkTextWithResponse.message.truthy = true ∧
    extractErrorMessage networkTextWithResponse (JSVal.str "Signup failed")
      ≠ networkTextWithResponse.message := by
  decide

/-- C9 (amended): for every failure that has a response whose body carries
neither `detail` nor `message`, `extractErrorMessage` returns the default when
the error has no truthy message of its own, the fixed connectivity message
when that message is exactly "Network Error", and the error's own message in
every other case. -/
theorem extractErrorMessage_fallback (error : ApiError) (r : Response)
    (defaultMessage : JSVal)
    (hresp : error.response = some r)
    (hdetail : r.data.get "detail" = JSVal.undefined)
    (hmessage : r.data.get "message" = JSVal.undefined) :
    extractErrorMessage error defaultMessage =
      if error.message.truthy = false then defaultMessage
      else if error.message = JSVal.str "Network Error" then JSVal.str connectivityMessage
      else error.message := by
  have h1 : error.dataField "detail" = JSVal.undefined := by
    simp [ApiError.dataField, hresp, hdetail]
  have h2 : error.dataField "message" = JSVal.undefined := by
    simp [ApiError.dataField, hresp, hmessage]
  have h3 : JSVal.undefined.truthy = false := rfl
  have h4 : error.message.strictEqStr "Network Error" = true ↔
      error.message = JSVal.str "Network Error" := by
    cases error.message <;> simp [JSVal.strictEqStr]
  by_cases ht : error.message.truthy = true
  · by_cases hn : error.message = JSVal.str "Network Error"
    · have hs := h4.mpr hn
      simp only [extractErrorMessage, h1, h2, h3, ht, hs, if_true]
      simp [hn]
    · have hn2 : error.message.strictEqStr "Network Error" = false := by
        simpa using fun h => hn (h4.mp h)
      simp [extractErrorMessage, h1, h2, h3, ht, hn, hn2]
  · have hf : error.message.truthy = false := by simpa using ht
    simp [extractErrorMessage, h1, h2, h3, hf]

/-- Witness of C9 (amended): a 500 response with an empty body yields the
axios text of the error. -/
theorem extractErrorMessage_fallback_witness :
    extractErrorMessage plainServerError (JSVal.str "Signup failed")
      = JSVal.str "Request failed with status code 500" :=
  (extractErrorMessage_fallback plainServerError { status := 500, data := JSVal.obj [] }
    (JSVal.str "Signup failed") rfl rfl rfl).trans (by decide)

/-- C10, as stated, fails: with a structured `detail` in the body and a
non-empty default, the selected message is an object, not a string. -/
theorem extractErrorMessage_nonstring_counterexample :
    extractErrorMessage structuredDetailError (JSVal.str "Login failed")
      = JSVal.obj [("msg", JSVal.str "field required")] ∧
    (extractErrorMessage structuredDetailError (JSVal.str "Login failed")).isString
      = false := by
  decide

/-- C10 (amended): when the body's `detail`, the body's `message` and the
error's own message are each a string or falsy, and the default is a non-empty
string, the message selected by `extractErrorMessage` is a non-empty string. -/
theorem extractErrorMessage_nonempty_string (error : ApiError) (d : String)
    (hd : (error.dataField "detail").truthy = true → (error.dataField "detail").isString = true)
    (hm : (error.dataField "message").truthy = true →
      (error.dataField "message").isString = true)
    (he : error.message.truthy = true → error.message.isString = true)
    (hdefault : d ≠ "") :
    ∃ m : String, extractErrorMessage error (JSVal.str d) = JSVal.str m ∧ m ≠ "" := by
  unfold extractErrorMessage
  by_cases h1 : (error.dataField "detail").truthy = true
  · rw [if_pos h1]
    exact JSVal.eq_str_of_truthy_isString h1 (hd h1)
  · rw [if_neg h1]
    by_cases h2 : (error.dataField "message").truthy = true
    · rw [if_pos h2]
      exact JSVal.eq_str_of_truthy_isString h2 (hm h2)
    · rw [if_neg h2]
      by_cases h3 : error.message.truthy = true
      · rw [if_pos h3]
        by_cases h4 : error.message.strictEqStr "Network Error" = true
        · rw [if_pos h4]
          exact ⟨connectivityMessage, rfl, by decide⟩
        · rw [if_neg h4]
          exact JSVal.eq_str_of_truthy_isString h3 (he h3)
      · rw [if_neg h3]
        exact ⟨d, rfl, hdefault⟩

/-- Witness of C10 (amended) on the timeout sample. -/
theorem extractErrorMessage_nonempty_string_witness :
    ∃ m : String, extractErrorMessage timeoutError (JSVal.str "Login failed") = JSVal.str m ∧
      m ≠ "" :=
  extractErrorMessage_nonempty_string timeoutError "Login failed"
    (by decide) (by decide) (by decide) (by decide)

/-! ## Auxiliary facts on strings, storage and thrown errors -/

theorem toDigitsCore_ne_nil (b : Nat) : ∀ (fuel n : Nat) (ds : List Char),
    (fuel ≠ 0 ∨ ds ≠ []) → Nat.toDigitsCore b fuel n ds ≠ [] := by
  intro fuel
  induction fuel with
  | zero =>
    intro n ds h
    rcases h with h | h
    · exact absurd rfl h
    · simpa [Nat.toDigitsCore] using h
  | succ k ih =>
    intro n ds _
    unfold Nat.toDigitsCore
    simp only
    split
    · simp
    · exact ih _ _ (Or.inr (by simp))

theorem natRepr_ne_empty (n : Nat) : Nat.repr n ≠ "" := by
  unfold Nat.repr Nat.toDigits
  intro h
  have h2 := congrArg String.data h
  simp only [List.asString] at h2
  exact toDigitsCore_ne_nil 10 (n + 1) n [] (Or.inl (by simp)) h2

theorem intToString_ne_empty (n : Int) : toString n ≠ "" := by
  cases n with
  | ofNat m => exact natRepr_ne_empty m
  | negSucc m =>
    show "-" ++ Nat.repr (m + 1) ≠ ""
    intro h
    have h2 := congrArg String.length h
    simp [String.length_append] at h2
    exact absurd h2.1 (by decide)

theorem JSVal.toJSString_ne_empty {v : JSVal} (h : v.truthy = true)
    (harr : ∀ items : List JSVal, v ≠ JSVal.arr items) : v.toJSString ≠ "" := by
  cases v with
  | undefined => simp [JSVal.truthy] at h
  | null => simp [JSVal.truthy] at h
  | bool b =>
    cases b
    · simp [JSVal.truthy] at h
    · decide
  | num n => simpa [JSVal.toJSString] using intToString_ne_empty n
  | str s => simpa [JSVal.truthy, JSVal.toJSString] using h
  | arr items => exact absurd rfl (harr items)
  | obj fields => simp [JSVal.toJSString]

theorem newError_message {v : JSVal} (h : v.truthy = true) :
    (newError v).message = JSVal.str v.toJSString := by
  cases v <;> first | rfl | simp [JSVal.truthy] at h

theorem newError_response (v : JSVal) : (newError v).response = none := rfl

theorem str_truthy {m : String} (h : m ≠ "") : (JSVal.str m).truthy = true := by
  simp [JSVal.truthy, h]

theorem extractErrorMessage_truthy (error : ApiError) {d : JSVal} (hd : d.truthy = true) :
    (extractErrorMessage error d).truthy = true := by
  unfold extractErrorMessage
  by_cases h1 : (error.dataField "detail").truthy = true
  · rw [if_pos h1]; exact h1
  · rw [if_neg h1]
    by_cases h2 : (error.dataField "message").truthy = true
    · rw [if_pos h2]; exact h2
    · rw [if_neg h2]
      by_cases h3 : error.message.truthy = true
      · rw [if_pos h3]
        by_cases h4 : error.message.strictEqStr "Network Error" = true
        · rw [if_pos h4]; decide
        · rw [if_neg h4]; exact h3
      · rw [if_neg h3]; exact hd

theorem catchMessage_error_str (x fallback : String) :
    catchMessage { response := none, message := JSVal.str x } fallback =
      if x = "" then JSVal.str fallback else JSVal.str x := by
  by_cases hx : x = ""
  · subst hx
    simp [catchMessage, JSVal.truthy, ApiError.dataField]
  · simp [catchMessage, JSVal.truthy, hx]

theorem newError_shape (v : JSVal) :
    ∃ x : String, newError v = { response := none, message := JSVal.str x } := by
  cases v <;> exact ⟨_, rfl⟩

theorem newError_truthy {v : JSVal} (h : v.truthy = true) :
    newError v = { response := none, message := JSVal.str v.toJSString } := by
  cases v <;> first | rfl | simp [JSVal.truthy] at h

theorem catchMessage_newError {v : JSVal} (h : v.truthy = true) (fallback : String) :
    catchMessage (newError v) fallback =
      if v.toJSString = "" then JSVal.str fallback else JSVal.str v.toJSString := by
  rw [newError_truthy h, catchMessage_error_str]

theorem Storage.getItem_setItem_self (st : Storage) (key value : String) :
    (st.setItem key value).getItem key = some value := by
  simp [Storage.setItem, Storage.getItem, List.lookup]

theorem Storage.getItem_removeItem_ne (st : Storage) {key other : String} (h : other ≠ key) :
    (st.removeItem key).getItem other = st.getItem other := by
  induction st with
  | nil => rfl
  | cons p rest ih =>
    obtain ⟨k, v⟩ := p
    unfold Storage.removeItem Storage.getItem at *
    by_cases hk : k = key
    · subst hk
      have h2 : (other == k) = false := by simpa using h
      simpa [List.filter, List.lookup_cons, h2] using ih
    · have h1 : (k != key) = true := by simpa using hk
      simp only [List.filter_cons, h1, if_true, List.lookup_cons]
      rw [ih]

theorem Storage.getItem_removeItem_sub (st : Storage) (key other value : String)
    (h : (st.removeItem key).getItem other = some value) : st.getItem other = some value := by
  by_cases hk : other = key
  · subst hk
    rw [Storage.getItem_removeItem_self] at h
    exact Option.noConfusion h
  · rwa [Storage.getItem_removeItem_ne st hk] at h

theorem responseInterceptorRejected_sub (error : ApiError) (st : Storage) (key value : String)
    (h : (responseInterceptorRejected error st).2.getItem key = some value) :
    st.getItem key = some value := by
  unfold responseInterceptorRejected at h
  cases hr : error.response with
  | none => simpa [hr] using h
  | some r =>
    by_cases h401 : r.status = 401
    · simp only [hr, h401, if_true] at h
      exact Storage.getItem_removeItem_sub st "token" key value h
    · simpa [hr, h401] using h

/-! ## Requests through the api client -/

theorem apiPost_error {http : RequestConfig → Except ApiError Response} {st : Storage}
    {config : RequestConfig} {error : ApiError}
    (h : http (requestInterceptor config st) = Except.error error) :
    apiPost http st config = (Except.error error, (responseInterceptorRejected error st).2) := by
  simp [apiPost, h, responseInterceptorRejected]

theorem apiPost_ok {http : RequestConfig → Except ApiError Response} {st : Storage}
    {config : RequestConfig} {response : Response}
    (h : http (requestInterceptor config st) = Except.ok response) :
    apiPost http st config = (Except.ok response, st) := by
  simp [apiPost, h, responseInterceptorFulfilled]

theorem Api.login_error {http : RequestConfig → Except ApiError Response} {st : Storage}
    {credentials : Credentials} {failure : ApiError}
    (h : http (requestInterceptor (loginConfig credentials) st) = Except.error failure) :
    Api.login http credentials st =
      (Except.error (newError (extractErrorMessage failure (JSVal.str "Login failed"))),
       (responseInterceptorRejected failure st).2) := by
  simp [Api.login, apiPost_error h]

theorem login_of_request_error (jwtDecode : String → Option Claims)
    (tokenError : JSVal → ApiError) {http : RequestConfig → Except ApiError Response}
    {credentials : Credentials} {s : AuthState} {failure : ApiError}
    (h : http (requestInterceptor (loginConfig credentials) s.storage) = Except.error failure) :
    login jwtDecode tokenError http credentials s =
      (Except.ok false,
       { storage := (responseInterceptorRejected failure s.storage).2, user := s.user,
         loading := false,
         error :=
           if (extractErrorMessage failure (JSVal.str "Login failed")).toJSString = "" then
             JSVal.str "Failed to login"
           else
             JSVal.str (extractErrorMessage failure (JSVal.str "Login failed")).toJSString }) := by
  have ht : (extractErrorMessage failure (JSVal.str "Login failed")).truthy = true :=
    extractErrorMessage_truthy failure (by decide)
  simp [login, Api.login_error h, loginCatch, catchMessage_newError ht]

/-! ## login -/

/-- C11, as stated, fails: for a 422 failure whose `detail` is a structured
value, `login` returns false, but the last error is the text
"[object Object]", not the classified message; and for a `detail` that is the
empty array the last error is the fallback "Failed to login". -/
theorem login_last_error_counterexample :
    (login sampleDecode sampleTokenError (fun _ => Except.error structuredDetailError)
      aliceCredentials (initialState [])).1 = Except.ok false ∧
    (login sampleDecode sampleTokenError (fun _ => Except.error structuredDetailError)
      aliceCredentials (initialState [])).2.error = JSVal.str "[object Object]" ∧
    (login sampleDecode sampleTokenError (fun _ => Except.error structuredDetailError)
      aliceCredentials (initialState [])).2.error
      ≠ extractErrorMessage structuredDetailError (JSVal.str "Login failed") ∧
    extractErrorMessage emptyArrayDetailError (JSVal.str "Login failed") = JSVal.arr [] ∧
    (login sampleDecode sampleTokenError (fun _ => Except.error emptyArrayDetailError)
      aliceCredentials (initialState [])).2.error = JSVal.str "Failed to login" := by
  decide

/-- C11 (amended): for every failure of the login request, `login` returns
false without throwing; the last error is the string conversion of the
classified message `extractErrorMessage(failure, "Login failed")` when that
conversion is non-empty, and "Failed to login" when it is empty; hence it is
the classified message itself whenever that message is a string. -/
theorem login_last_error (jwtDecode : String → Option Claims) (tokenError : JSVal → ApiError)
    (http : RequestConfig → Except ApiError Response) (credentials : Credentials)
    (s : AuthState) (failure : ApiError)
    (hfail : http (requestInterceptor (loginConfig credentials) s.storage)
      = Except.error failure) :
    (login jwtDecode tokenError http credentials s).1 = Except.ok false ∧
    (login jwtDecode tokenError http credentials s).2.error
      = (if (extractErrorMessage failure (JSVal.str "Login failed")).toJSString = "" then
          JSVal.str "Failed to login"
        else
          JSVal.str (extractErrorMessage failure (JSVal.str "Login failed")).toJSString) ∧
    ((extractErrorMessage failure (JSVal.str "Login failed")).isString = true →
      (login jwtDecode tokenError http credentials s).2.error
        = extractErrorMessage failure (JSVal.str "Login failed")) := by
  rw [login_of_request_error jwtDecode tokenError hfail]
  refine ⟨rfl, rfl, ?_⟩
  intro hs
  have ht : (extractErrorMessage failure (JSVal.str "Login failed")).truthy = true :=
    extractErrorMessage_truthy failure (by decide)
  obtain ⟨m, hm, hne⟩ := JSVal.eq_str_of_truthy_isString ht hs
  simp only [hm, JSVal.toJSString, hne, if_false]

/-- Witness of C11 (amended): alice with a wrong password against a server
answering 401 with detail "Incorrect username or password". -/
theorem login_last_error_witness :
    (login sampleDecode sampleTokenError (fun _ => Except.error wrongPassword401)
      aliceCredentials (initialState [])).1 = Except.ok false ∧
    (login sampleDecode sampleTokenError (fun _ => Except.error wrongPassword401)
      aliceCredentials (initialState [])).2.error
      = JSVal.str "Incorrect username or password" :=
  have h := login_last_error sampleDecode sampleTokenError
    (fun _ => Except.error wrongPassword401) aliceCredentials (initialState [])
    wrongPassword401 rfl
  ⟨h.1, h.2.1.trans (by decide)⟩

/-- C12, as stated, fails: the request succeeds with a token that does not
decode; `login` returns false, and the token, absent before the call, has
been written to storage. -/
theorem login_false_stores_counterexample :
    (initialState []).storage.getItem "token" = none ∧
    (login sampleDecode sampleTokenError (fun _ => Except.ok (tokenResponse "garbage"))
      aliceCredentials (initialState [])).1 = Except.ok false ∧
    (login sampleDecode sampleTokenError (fun _ => Except.ok (tokenResponse "garbage"))
      aliceCredentials (initialState [])).2.storage.getItem "token" = some "garbage" := by
  decide

/-- C12 (amended): whenever the login request fails, `login` returns false
and writes no token: the storage afterwards is what the response interceptor
left, and every entry in it was already there before the call. -/
theorem login_failure_stores_nothing (jwtDecode : String → Option Claims)
    (tokenError : JSVal → ApiError) (http : RequestConfig → Except ApiError Response)
    (credentials : Credentials) (s : AuthState) (failure : ApiError)
    (hfail : http (requestInterceptor (loginConfig credentials) s.storage)
      = Except.error failure) :
    (login jwtDecode tokenError http credentials s).1 = Except.ok false ∧
    (login jwtDecode tokenError http credentials s).2.storage
      = (responseInterceptorRejected failure s.storage).2 ∧
    ∀ key value : String,
      (login jwtDecode tokenError http credentials s).2.storage.getItem key = some value →
      s.storage.getItem key = some value := by
  rw [login_of_request_error jwtDecode tokenError hfail]
  exact ⟨rfl, rfl, fun key value h => responseInterceptorRejected_sub failure s.storage key value h⟩

/-- Witness of C12 (amended): a wrong password leaves an empty storage empty. -/
theorem login_failure_stores_nothing_witness :
    (login sampleDecode sampleTokenError (fun _ => Except.error wrongPassword401)
      aliceCredentials (initialState [("theme", "dark")])).1 = Except.ok false ∧
    (login sampleDecode sampleTokenError (fun _ => Except.error wrongPassword401)
      aliceCredentials (initialState [("theme", "dark")])).2.storage = [("theme", "dark")] :=
  have h := login_failure_stores_nothing sampleDecode sampleTokenError
    (fun _ => Except.error wrongPassword401) aliceCredentials
    (initialState [("theme", "dark")]) wrongPassword401 rfl
  ⟨h.1, h.2.1.trans (by decide)⟩

theorem JSVal.prop_of_get_str {v : JSVal} {key t : String} (h : v.get key = JSVal.str t) :
    v.prop key = Except.ok (JSVal.str t) := by
  cases v with
  | undefined => simp [JSVal.get] at h
  | null => simp [JSVal.get] at h
  | bool b => simp [JSVal.prop, h]
  | num n => simp [JSVal.prop, h]
  | str s => simp [JSVal.prop, h]
  | arr items => simp [JSVal.prop, h]
  | obj fields => simp [JSVal.prop, h]

theorem login_of_request_ok {jwtDecode : String → Option Claims}
    (tokenError : JSVal → ApiError) {http : RequestConfig → Except ApiError Response}
    {credentials : Credentials} {s : AuthState} {response : Response} {t : String} {c : Claims}
    (hok : http (requestInterceptor (loginConfig credentials) s.storage) = Except.ok response)
    (htok : response.data.get "access_token" = JSVal.str t)
    (hdec : jwtDecode t = some c) :
    login jwtDecode tokenError http credentials s =
      (Except.ok true,
       { storage := Storage.setItem
           (if (JSVal.str t).truthy then s.storage.setItem "token" t else s.storage) "token" t,
         user := some { username := c.sub }, loading := false, error := JSVal.null }) := by
  have hp := JSVal.prop_of_get_str htok
  simp [login, Api.login, apiPost_ok hok, hp, decodeValue, hdec, JSVal.toJSString]

/-- C13, as stated, fails: the login request succeeds with the bearer token
"garbage", which does not decode; `login` stores it, but returns false, sets
no identity and records an error. -/
theorem login_success_counterexample :
    sampleDecode "garbage" = none ∧
    (login sampleDecode sampleTokenError (fun _ => Except.ok (tokenResponse "garbage"))
      aliceCredentials (initialState [])).1 = Except.ok false ∧
    (login sampleDecode sampleTokenError (fun _ => Except.ok (tokenResponse "garbage"))
      aliceCredentials (initialState [])).2.user = none ∧
    (login sampleDecode sampleTokenError (fun _ => Except.ok (tokenResponse "garbage"))
      aliceCredentials (initialState [])).2.error = JSVal.str "Invalid token specified" := by
  decide

/-- C13 (amended): when the login request succeeds with a token that
`jwtDecode` decodes, `login` stores exactly that token under the key `token`,
sets the identity to the token's `sub` claim, leaves the last error null and
returns true. -/
theorem login_success (jwtDecode : String → Option Claims) (tokenError : JSVal → ApiError)
    (http : RequestConfig → Except ApiError Response) (credentials : Credentials)
    (s : AuthState) (response : Response) (t : String) (c : Claims)
    (hok : http (requestInterceptor (loginConfig credentials) s.storage) = Except.ok response)
    (htok : response.data.get "access_token" = JSVal.str t)
    (hdec : jwtDecode t = some c) :
    (login jwtDecode tokenError http credentials s).1 = Except.ok true ∧
    (login jwtDecode tokenError http credentials s).2.storage.getItem "token" = some t ∧
    (login jwtDecode tokenError http credentials s).2.user = some { username := c.sub } ∧
    (login jwtDecode tokenError http credentials s).2.error = JSVal.null := by
  rw [login_of_request_ok tokenError hok htok hdec]
  exact ⟨rfl, Storage.getItem_setItem_self _ _ _, rfl, rfl⟩

/-- Witness of C13 (amended): the server answers the login of alice with her token. -/
theorem login_success_witness :
    (login sampleDecode sampleTokenError (fun _ => Except.ok (tokenResponse "alice.jwt"))
      aliceCredentials (initialState [])).1 = Except.ok true ∧
    (login sampleDecode sampleTokenError (fun _ => Except.ok (tokenResponse "alice.jwt"))
      aliceCredentials (initialState [])).2.storage.getItem "token" = some "alice.jwt" ∧
    (login sampleDecode sampleTokenError (fun _ => Except.ok (tokenResponse "alice.jwt"))
      aliceCredentials (initialState [])).2.user = some alice :=
  have h := login_success sampleDecode sampleTokenError
    (fun _ => Except.ok (tokenResponse "alice.jwt")) aliceCredentials (initialState [])
    (tokenResponse "alice.jwt") "alice.jwt" { sub := JSVal.str "alice", exp := some 2000000000 }
    rfl (by decide) (by decide)
  ⟨h.1, h.2.1, h.2.2.1⟩

theorem login_true_inv {jwtDecode : String → Option Claims} {tokenError : JSVal → ApiError}
    {http : RequestConfig → Except ApiError Response} {credentials : Credentials}
    {s : AuthState}
    (h : (login jwtDecode tokenError http credentials s).1 = Except.ok true) :
    ∃ t c, jwtDecode t = some c ∧
      (login jwtDecode tokenError http credentials s).2.storage.getItem "token" = some t ∧
      (login jwtDecode tokenError http credentials s).2.user = some { username := c.sub } := by
  unfold login at h ⊢
  simp only at h ⊢
  generalize Api.login http credentials s.storage = r at h ⊢
  obtain ⟨res, st1⟩ := r
  cases res with
  | error err => simp [loginCatch] at h
  | ok response =>
    simp only at h ⊢
    cases hp : response.prop "access_token" with
    | error err => simp [hp, loginCatch] at h
    | ok tok =>
      simp only [hp] at h ⊢
      cases tok with
      | str t =>
        cases hd : jwtDecode t with
        | none => simp [decodeValue, hd, loginCatch] at h
        | some c =>
          refine ⟨t, c, hd, ?_, ?_⟩
          · simp [decodeValue, hd, JSVal.toJSString, Storage.getItem_setItem_self]
          · simp [decodeValue, hd]
      | undefined => simp [decodeValue, loginCatch] at h
      | null => simp [decodeValue, loginCatch] at h
      | bool b => simp [decodeValue, loginCatch] at h
      | num n => simp [decodeValue, loginCatch] at h
      | arr items => simp [decodeValue, loginCatch] at h
      | obj fields => simp [decodeValue, loginCatch] at h

theorem checkAuth_of_fresh {jwtDecode : String → Option Claims} {nowMs : Nat} {s : AuthState}
    {t : String} {c : Claims}
    (hstored : s.storage.getItem "token" = some t) (hdec : jwtDecode t = some c)
    (huser : s.user = some { username := c.sub }) (hfresh : isExpired c nowMs = false) :
    (checkAuth jwtDecode nowMs s).1 = Except.ok () ∧
    (checkAuth jwtDecode nowMs s).2.user = some { username := c.sub } ∧
    (checkAuth jwtDecode nowMs s).2.storage = s.storage := by
  by_cases ht : t = ""
  · subst ht
    simp [checkAuth, hstored, tokenTruthy, huser]
  · simp [checkAuth, hstored, tokenTruthy_some ht, hdec, hfresh]

/-- C14, as stated, fails: the server answers the login of bob with a token
whose subject is bob and which expired at second 1000; `login` returns true,
and the following `checkAuth` removes the token and resets the identity. -/
theorem checkAuth_after_login_counterexample :
    (login sampleDecode sampleTokenError (fun _ => Except.ok (tokenResponse "old.jwt"))
      bobCredentials (initialState [])).1 = Except.ok true ∧
    sampleDecode "old.jwt" = some { sub := bobCredentials.username, exp := some 1000 } ∧
    (checkAuth sampleDecode sampleNow
      (login sampleDecode sampleTokenError (fun _ => Except.ok (tokenResponse "old.jwt"))
        bobCredentials (initialState [])).2).2.user = none ∧
    (checkAuth sampleDecode sampleNow
      (login sampleDecode sampleTokenError (fun _ => Except.ok (tokenResponse "old.jwt"))
        bobCredentials (initialState [])).2).2.storage.getItem "token" = none := by
  decide

/-- C14 (amended): for every login call that returns true, where the returned
token's subject is the username supplied and the token is not expired at the
time of the check, an immediately following `checkAuth` returns normally,
yields the identity with that subject, and leaves the token stored. -/
theorem checkAuth_after_login (jwtDecode : String → Option Claims)
    (tokenError : JSVal → ApiError) (http : RequestConfig → Except ApiError Response)
    (credentials : Credentials) (s : AuthState) (nowMs : Nat)
    (hlogin : (login jwtDecode tokenError http credentials s).1 = Except.ok true)
    (hsub : ∀ t c,
      (login jwtDecode tokenError http credentials s).2.storage.getItem "token" = some t →
      jwtDecode t = some c → c.sub = credentials.username)
    (hfresh : ∀ t c,
      (login jwtDecode tokenError http credentials s).2.storage.getItem "token" = some t →
      jwtDecode t = some c → isExpired c nowMs = false) :
    (checkAuth jwtDecode nowMs (login jwtDecode tokenError http credentials s).2).1
      = Except.ok () ∧
    (checkAuth jwtDecode nowMs (login jwtDecode tokenError http credentials s).2).2.user
      = some { username := credentials.username } ∧
    (checkAuth jwtDecode nowMs (login jwtDecode tokenError http credentials s).2).2.storage
      = (login jwtDecode tokenError http credentials s).2.storage ∧
    ((login jwtDecode tokenError http credentials s).2.storage.getItem "token").isSome = true := by
  obtain ⟨t, c, hdec, hstored, huser⟩ := login_true_inv hlogin
  have h := checkAuth_of_fresh hstored hdec huser (hfresh t c hstored hdec)
  rw [hsub t c hstored hdec] at h
  exact ⟨h.1, h.2.1, h.2.2, by simp [hstored]⟩

/-- Witness of C14 (amended): alice logs in and receives her token, valid
until second 2000000000. -/
theorem checkAuth_after_login_witness :
    (login sampleDecode sampleTokenError (fun _ => Except.ok (tokenResponse "alice.jwt"))
      aliceCredentials (initialState [])).1 = Except.ok true ∧
    (checkAuth sampleDecode sampleNow
      (login sampleDecode sampleTokenError (fun _ => Except.ok (tokenResponse "alice.jwt"))
        aliceCredentials (initialState [])).2).2.user = some alice :=
  have hstored : (login sampleDecode sampleTokenError
      (fun _ => Except.ok (tokenResponse "alice.jwt")) aliceCredentials
      (initialState [])).2.storage.getItem "token" = some "alice.jwt" := by decide
  have hclaims : sampleDecode "alice.jwt"
      = some { sub := JSVal.str "alice", exp := some 2000000000 } := by decide
  have h := checkAuth_after_login sampleDecode sampleTokenError
    (fun _ => Except.ok (tokenResponse "alice.jwt")) aliceCredentials (initialState [])
    sampleNow (by decide)
    (by
      intro t c h1 h2
      rw [hstored] at h1
      cases h1
      rw [hclaims] at h2
      cases h2
      rfl)
    (by
      intro t c h1 h2
      rw [hstored] at h1
      cases h1
      rw [hclaims] at h2
      cases h2
      decide)
  ⟨by decide, h.2.1⟩

/-! ## signup -/

theorem catchMessage_truthy (err : ApiError) {fallback : String} (h : fallback ≠ "") :
    (catchMessage err fallback).truthy = true := by
  unfold catchMessage
  by_cases h1 : err.message.truthy = true
  · rw [if_pos h1]; exact h1
  · rw [if_neg h1]
    by_cases h2 : (err.dataField "detail").truthy = true
    · rw [if_pos h2]; exact h2
    · rw [if_neg h2]; exact str_truthy h

theorem Api.signup_error {http : RequestConfig → Except ApiError Response} {st : Storage}
    {userData : UserData} {failure : ApiError}
    (h : http (requestInterceptor (signupConfig userData) st) = Except.error failure) :
    Api.signup http userData st =
      (Except.error (newError (extractErrorMessage failure (JSVal.str "Signup failed"))),
       (responseInterceptorRejected failure st).2) := by
  simp [Api.signup, apiPost_error h]

theorem signup_of_request_error {http : RequestConfig → Except ApiError Response}
    {userData : UserData} {s : AuthState} {failure : ApiError}
    (h : http (requestInterceptor (signupConfig userData) s.storage) = Except.error failure) :
    signup http userData s =
      (Except.error
        { response := none,
          message := JSVal.str
            (if (extractErrorMessage failure (JSVal.str "Signup failed")).toJSString = "" then
              "Failed to sign up"
            else (extractErrorMessage failure (JSVal.str "Signup failed")).toJSString) },
       { storage := (responseInterceptorRejected failure s.storage).2, user := s.user,
         loading := false,
         error := JSVal.str
           (if (extractErrorMessage failure (JSVal.str "Signup failed")).toJSString = "" then
             "Failed to sign up"
           else (extractErrorMessage failure (JSVal.str "Signup failed")).toJSString) }) := by
  have ht : (extractErrorMessage failure (JSVal.str "Signup failed")).truthy = true :=
    extractErrorMessage_truthy failure (by decide)
  have hn : ∀ x : String, newError (JSVal.str x) = { response := none, message := JSVal.str x } :=
    fun _ => rfl
  have hc := catchMessage_newError ht "Failed to sign up"
  have hif : (if (extractErrorMessage failure (JSVal.str "Signup failed")).toJSString = "" then
        JSVal.str "Failed to sign up"
      else JSVal.str (extractErrorMessage failure (JSVal.str "Signup failed")).toJSString)
      = JSVal.str
        (if (extractErrorMessage failure (JSVal.str "Signup failed")).toJSString = "" then
          "Failed to sign up"
        else (extractErrorMessage failure (JSVal.str "Signup failed")).toJSString) := by
    split <;> rfl
  rw [hif] at hc
  simp [signup, Api.signup_error h, hc, hn]

theorem apiSignup_error_shape {http : RequestConfig → Except ApiError Response}
    {userData : UserData} {st : Storage} {e : ApiError}
    (h : (Api.signup http userData st).1 = Except.error e) :
    ∃ x : String, e = { response := none, message := JSVal.str x } := by
  unfold Api.signup at h
  generalize apiPost http st (signupConfig userData) = r at h
  obtain ⟨res, st1⟩ := r
  cases res with
  | ok response => simp at h
  | error failure =>
    simp only [Except.error.injEq] at h
    rw [← h]
    exact newError_shape _

theorem signup_error_message_truthy {http : RequestConfig → Except ApiError Response}
    {userData : UserData} {s : AuthState} {err : ApiError}
    (h : (signup http userData s).1 = Except.error err) : err.message.truthy = true := by
  have hsh : ∀ e, (Api.signup http userData s.storage).1 = Except.error e →
      ∃ x : String, e = { response := none, message := JSVal.str x } :=
    fun e he => apiSignup_error_shape he
  unfold signup at h
  simp only at h
  revert hsh
  generalize Api.signup http userData s.storage = r at h
  intro hsh
  obtain ⟨res, st1⟩ := r
  cases res with
  | ok response => simp at h
  | error e =>
    simp only [Except.error.injEq] at h
    obtain ⟨x, hx⟩ := hsh e rfl
    rw [← h, hx, catchMessage_error_str]
    by_cases hxe : x = ""
    · rw [if_pos hxe]
      decide
    · rw [if_neg hxe]
      exact str_truthy hxe

/-- C15, as stated, fails: for a body whose `detail` is a structured value the
raised message and the last error are the text "[object Object]", and for a
body whose `detail` is the empty string they are the body's `message`. -/
theorem signup_detail_counterexample :
    structuredDetailError.dataField "detail"
      = JSVal.obj [("msg", JSVal.str "field required")] ∧
    (signup (fun _ => Except.error structuredDetailError) aliceSignup (initialState [])).1
      = Except.error { response := none, message := JSVal.str "[object Object]" } ∧
    (signup (fun _ => Except.error structuredDetailError) aliceSignup
      (initialState [])).2.error = JSVal.str "[object Object]" ∧
    emptyDetailError.dataField "detail" = JSVal.str "" ∧
    (signup (fun _ => Except.error emptyDetailError) aliceSignup (initialState [])).1
      = Except.error { response := none, message := JSVal.str "Invalid input" } ∧
    (signup (fun _ => Except.error emptyDetailError) aliceSignup (initialState [])).2.error
      = JSVal.str "Invalid input" := by
  decide

/-- C15 (amended): for every signup request that fails with a response body
carrying a `detail` that is a non-empty string `d`, `signup` of api.js and
`signup` of the context raise an error whose message is exactly `d`, and the
last error of the context is set to `d`. -/
theorem signup_detail_failure (http : RequestConfig → Except ApiError Response)
    (userData : UserData) (s : AuthState) (failure : ApiError) (r : Response)
    (fields : List (String × JSVal)) (d : String)
    (hfail : http (requestInterceptor (signupConfig userData) s.storage)
      = Except.error failure)
    (hresp : failure.response = some r)
    (hbody : r.data = JSVal.obj fields)
    (hdetail : fields.lookup "detail" = some (JSVal.str d))
    (hne : d ≠ "") :
    (Api.signup http userData s.storage).1
      = Except.error { response := none, message := JSVal.str d } ∧
    (signup http userData s).1 = Except.error { response := none, message := JSVal.str d } ∧
    (signup http userData s).2.error = JSVal.str d := by
  have hm : extractErrorMessage failure (JSVal.str "Signup failed") = JSVal.str d := by
    have hdf : failure.dataField "detail" = JSVal.str d := by
      simp [ApiError.dataField, hresp, hbody, JSVal.get, hdetail]
    simp [extractErrorMessage, hdf, str_truthy hne]
  have hd : (JSVal.str d).toJSString = d := by simp [JSVal.toJSString]
  rw [signup_of_request_error hfail, Api.signup_error hfail, hm, hd, if_neg hne]
  exact ⟨rfl, rfl, rfl⟩

/-- Witness of C15 (amended): the signup of an existing user. -/
theorem signup_detail_failure_witness :
    (signup (fun _ => Except.error userExists400) aliceSignup (initialState [])).1
      = Except.error { response := none, message := JSVal.str "User already exists" } ∧
    (signup (fun _ => Except.error userExists400) aliceSignup (initialState [])).2.error
      = JSVal.str "User already exists" :=
  (signup_detail_failure (fun _ => Except.error userExists400) aliceSignup (initialState [])
    userExists400
    { status := 400, data := JSVal.obj [("detail", JSVal.str "User already exists")] }
    [("detail", JSVal.str "User already exists")] "User already exists"
    rfl rfl rfl (by decide) (by decide)).2

/-! ## handleSignupSubmit -/

/-- C16: in `handleSignupSubmit`, whenever the inputs pass validation and
`signup` raises, `login` is never called, `navigate` is never called, the
form stays on its tab, and the form error is the message of the raised
error. -/
theorem handleSignupSubmit_signup_raises (jwtDecode : String → Option Claims)
    (tokenError : JSVal → ApiError) (http : RequestConfig → Except ApiError Response)
    (authError : JSVal) (signupData : SignupData) (form : FormState) (auth : AuthState)
    (err : ApiError)
    (hfilled : signupData.username ≠ "" ∧ signupData.email ≠ "" ∧ signupData.password ≠ "" ∧
      signupData.confirmPassword ≠ "")
    (hsame : signupData.password = signupData.confirmPassword)
    (hraise : (signup http
        { username := JSVal.str signupData.username, email := JSVal.str signupData.email,
          password := JSVal.str signupData.password } auth).1 = Except.error err) :
    (handleSignupSubmit jwtDecode tokenError http authError signupData form auth).loginCalls = 0 ∧
    (handleSignupSubmit jwtDecode tokenError http authError signupData form auth).navigated
      = none ∧
    (handleSignupSubmit jwtDecode tokenError http authError signupData form auth).form.activeTab
      = form.activeTab ∧
    (handleSignupSubmit jwtDecode tokenError http authError signupData form auth).form.error
      = err.message ∧
    (handleSignupSubmit jwtDecode tokenError http authError signupData form auth).form.loading
      = false := by
  have ht := signup_error_message_truthy hraise
  obtain ⟨h1, h2, h3, h4⟩ := hfilled
  have hv : ¬ (signupData.username = "" ∨ signupData.email = "" ∨ signupData.password = "" ∨
      signupData.confirmPassword = "") := by
    simp [h1, h2, h3, h4]
  unfold handleSignupSubmit
  simp only []
  rw [if_neg hv, if_neg (not_not.mpr hsame)]
  generalize signup http
    { username := JSVal.str signupData.username, email := JSVal.str signupData.email,
      password := JSVal.str signupData.password } auth = r at hraise
  obtain ⟨res, auth1⟩ := r
  simp only at hraise
  subst hraise
  simp [JSVal.or, ht]

/-- Witness of C16: the signup of an existing user from the form. -/
theorem handleSignupSubmit_signup_raises_witness :
    (handleSignupSubmit sampleDecode sampleTokenError (fun _ => Except.error userExists400)
      JSVal.null aliceForm signupTab (initialState [])).loginCalls = 0 ∧
    (handleSignupSubmit sampleDecode sampleTokenError (fun _ => Except.error userExists400)
      JSVal.null aliceForm signupTab (initialState [])).navigated = none ∧
    (handleSignupSubmit sampleDecode sampleTokenError (fun _ => Except.error userExists400)
      JSVal.null aliceForm signupTab (initialState [])).form.error
      = JSVal.str "User already exists" :=
  have h := handleSignupSubmit_signup_raises sampleDecode sampleTokenError
    (fun _ => Except.error userExists400) JSVal.null aliceForm signupTab (initialState [])
    { response := none, message := JSVal.str "User already exists" }
    (by decide) (by decide) (by decide)
  ⟨h.1, h.2.1, h.2.2.2.1⟩

/-! ## The interceptors -/

theorem lookup_setHeader_self (headers : List (String × String)) (name value : String) :
    (setHeader headers name value).lookup name = some value :=
  Storage.getItem_setItem_self headers name value

theorem lookup_setHeader_ne (headers : List (String × String)) {name other : String}
    (value : String) (h : other ≠ name) :
    (setHeader headers name value).lookup other = headers.lookup other := by
  have h2 : (other == name) = false := by simpa using h
  have h3 := Storage.getItem_removeItem_ne headers h
  unfold Storage.getItem Storage.removeItem at h3
  simp only [setHeader, List.lookup_cons, h2]
  exact h3

/-- C17, as stated, fails: with the empty string stored under `token`, a token
is present in storage, and the interceptor adds no Authorization header. -/
theorem requestInterceptor_counterexample :
    (sessionWith "" none).storage.getItem "token" = some "" ∧
    requestInterceptor uploadConfig (sessionWith "" none).storage = uploadConfig ∧
    (requestInterceptor uploadConfig (sessionWith "" none).storage).headers.lookup
      "Authorization" = none := by
  decide

/-- C17 (amended): for every outgoing request, either a non-empty token is
stored and the interceptor sets the header Authorization to "Bearer "
followed by that token, leaving the url, the body and every other header as
they were, or no token or the empty string is stored and the configuration
is sent unchanged. -/
theorem requestInterceptor_authorization (config : RequestConfig) (st : Storage) :
    (∃ t : String, st.getItem "token" = some t ∧ t ≠ "" ∧
      (requestInterceptor config st).headers.lookup "Authorization" = some ("Bearer " ++ t) ∧
      (requestInterceptor config st).url = config.url ∧
      (requestInterceptor config st).data = config.data ∧
      ∀ name : String, name ≠ "Authorization" →
        (requestInterceptor config st).headers.lookup name = config.headers.lookup name) ∨
    ((st.getItem "token" = none ∨ st.getItem "token" = some "") ∧
      requestInterceptor config st = config) := by
  cases hs : st.getItem "token" with
  | none =>
    right
    exact ⟨Or.inl rfl, by simp [requestInterceptor, hs, tokenTruthy]⟩
  | some t =>
    by_cases ht : t = ""
    · right
      subst ht
      exact ⟨Or.inr rfl, by simp [requestInterceptor, hs, tokenTruthy]⟩
    · left
      have hr : requestInterceptor config st =
          { config with headers := setHeader config.headers "Authorization" ("Bearer " ++ t) } := by
        simp [requestInterceptor, hs, tokenTruthy_some ht]
      refine ⟨t, rfl, ht, ?_, ?_, ?_, ?_⟩
      · rw [hr]; exact lookup_setHeader_self _ _ _
      · rw [hr]
      · rw [hr]
      · intro name hname
        rw [hr]
        exact lookup_setHeader_ne _ _ hname

/-- C18: for every error whose response has status 401, the response
interceptor removes the stored token, leaves every other key as it was, and
rejects with the very error it received; so does a request through `api`. -/
theorem responseInterceptor_401 (http : RequestConfig → Except ApiError Response)
    (config : RequestConfig) (st : Storage) (error : ApiError) (r : Response)
    (hresp : error.response = some r)
    (hstatus : r.status = 401)
    (hfail : http (requestInterceptor config st) = Except.error error) :
    (responseInterceptorRejected error st).1 = error ∧
    (responseInterceptorRejected error st).2.getItem "token" = none ∧
    (∀ key : String, key ≠ "token" →
      (responseInterceptorRejected error st).2.getItem key = st.getItem key) ∧
    (apiPost http st config).1 = Except.error error ∧
    (apiPost http st config).2.getItem "token" = none := by
  have h2 : (responseInterceptorRejected error st).2 = st.removeItem "token" := by
    simp [responseInterceptorRejected, hresp, hstatus]
  rw [apiPost_error hfail, h2]
  exact ⟨rfl, Storage.getItem_removeItem_self st "token",
    fun key hkey => Storage.getItem_removeItem_ne st hkey, rfl,
    Storage.getItem_removeItem_self st "token"⟩

/-- Witness of C18: an upload by alice is answered with 401. -/
theorem responseInterceptor_401_witness :
    (apiPost (fun _ => Except.error rejected401)
      (sessionWith "alice.jwt" (some alice)).storage uploadConfig).1
      = Except.error rejected401 ∧
    (apiPost (fun _ => Except.error rejected401)
      (sessionWith "alice.jwt" (some alice)).storage uploadConfig).2.getItem "token" = none :=
  have h := responseInterceptor_401 (fun _ => Except.error rejected401) uploadConfig
    (sessionWith "alice.jwt" (some alice)).storage rejected401
    { status := 401,
      data := JSVal.obj [("detail", JSVal.str "Could not validate credentials")] }
    rfl rfl rfl
  ⟨h.2.2.2.1, h.2.2.2.2⟩

/-! ## isAuthenticated of api.js -/

/-- C19, as stated, fails: `isAuthenticated` answers true for a stored token
that does not decode and for a stored token that expired at second 1000. -/
theorem isAuthenticated_counterexample :
    Api.isAuthenticated (sessionWith "garbage" none).storage = true ∧
    sampleDecode "garbage" = none ∧
    Api.isAuthenticated (sessionWith "old.jwt" none).storage = true ∧
    sampleDecode "old.jwt" = some { sub := JSVal.str "bob", exp := some 1000 } ∧
    isExpired { sub := JSVal.str "bob", exp := some 1000 } sampleNow = true := by
  decide

/-- C19 (amended): `isAuthenticated` of api.js returns true exactly when a
non-empty string is stored under `token`; the token is neither decoded nor
checked for expiry. -/
theorem isAuthenticated_iff (st : Storage) :
    Api.isAuthenticated st = true ↔ ∃ t : String, st.getItem "token" = some t ∧ t ≠ "" := by
  unfold Api.isAuthenticated
  cases hs : st.getItem "token" with
  | none => simp [tokenTruthy]
  | some t => simp [tokenTruthy]

/-! ## The identity and the stored token -/

theorem tokenBacksIdentity_iff (s : AuthState) :
    tokenBacksIdentity s = true ↔
      (s.user.isSome = true → (s.storage.getItem "token").isSome = true) := by
  unfold tokenBacksIdentity
  cases s.user <;> simp

theorem responseInterceptorRejected_not401 {error : ApiError} (st : Storage)
    (h : is401 (Except.error error) = false) : (responseInterceptorRejected error st).2 = st := by
  unfold is401 at h
  unfold responseInterceptorRejected
  cases hr : error.response with
  | none => rfl
  | some r =>
    have h2 : ¬ r.status = 401 := by simpa [hr] using h
    simp [h2]

theorem login_keeps (jwtDecode : String → Option Claims) (tokenError : JSVal → ApiError)
    (credentials : Credentials) (outcome : Except ApiError Response) (s : AuthState)
    (h : is401 outcome = false) :
    ((login jwtDecode tokenError (fun _ => outcome) credentials s).2.storage.getItem
        "token").isSome = true ∨
    ((login jwtDecode tokenError (fun _ => outcome) credentials s).2.user = s.user ∧
     (login jwtDecode tokenError (fun _ => outcome) credentials s).2.storage = s.storage) := by
  cases outcome with
  | error e =>
    right
    have hreq : (fun _ : RequestConfig => (Except.error e : Except ApiError Response))
        (requestInterceptor (loginConfig credentials) s.storage) = Except.error e := rfl
    rw [login_of_request_error jwtDecode tokenError hreq]
    exact ⟨rfl, responseInterceptorRejected_not401 s.storage h⟩
  | ok response =>
    unfold login Api.login
    simp only [apiPost, responseInterceptorFulfilled]
    cases hp : response.data.prop "access_token" with
    | error err => right; simp [loginCatch]
    | ok tok =>
      left
      simp only [hp]
      cases decodeValue jwtDecode tokenError tok <;>
        simp [loginCatch, Storage.getItem_setItem_self]

theorem signup_keeps (userData : UserData) (outcome : Except ApiError Response) (s : AuthState)
    (h : is401 outcome = false) :
    (signup (fun _ => outcome) userData s).2.user = s.user ∧
    (signup (fun _ => outcome) userData s).2.storage = s.storage := by
  cases outcome with
  | error e =>
    have hreq : (fun _ : RequestConfig => (Except.error e : Except ApiError Response))
        (requestInterceptor (signupConfig userData) s.storage) = Except.error e := rfl
    rw [signup_of_request_error hreq]
    exact ⟨rfl, responseInterceptorRejected_not401 s.storage h⟩
  | ok response => simp [signup, Api.signup, apiPost, responseInterceptorFulfilled]

theorem checkAuth_preserves (jwtDecode : String → Option Claims) (nowMs : Nat) (s : AuthState)
    (h : tokenBacksIdentity s = true) :
    tokenBacksIdentity (checkAuth jwtDecode nowMs s).2 = true := by
  rw [tokenBacksIdentity_iff] at h ⊢
  unfold checkAuth
  simp only []
  cases hs : s.storage.getItem "token" with
  | none =>
    intro hu
    have := h (by simpa [tokenTruthy] using hu)
    simp [hs] at this
  | some t =>
    by_cases ht : t = ""
    · subst ht
      simp [tokenTruthy, hs]
    · simp only [tokenTruthy_some ht, if_true, Option.getD_some]
      cases jwtDecode t with
      | none => simp
      | some c =>
        by_cases hx : isExpired c nowMs = true
        · simp [hx]
        · simp [hx, hs]

theorem step_preserves (jwtDecode : String → Option Claims) (tokenError : JSVal → ApiError)
    (s : AuthState) (a : Action) (h401 : a.rejected401 = false)
    (h : tokenBacksIdentity s = true) :
    tokenBacksIdentity (step jwtDecode tokenError s a) = true := by
  cases a with
  | login credentials outcome =>
    rcases login_keeps jwtDecode tokenError credentials outcome s h401 with hk | ⟨hu, hst⟩
    · simp [step, tokenBacksIdentity, hk]
    · rw [tokenBacksIdentity_iff] at h ⊢
      simp only [step, hu, hst]
      exact h
  | signup userData outcome =>
    obtain ⟨hu, hst⟩ := signup_keeps userData outcome s h401
    rw [tokenBacksIdentity_iff] at h ⊢
    simp only [step, hu, hst]
    exact h
  | logout => simp [step, logout, tokenBacksIdentity]
  | checkAuth nowMs => exact checkAuth_preserves jwtDecode nowMs s h
  | request outcome =>
    cases outcome with
    | ok response => exact h
    | error e =>
      have hst : (afterFailedRequest e s) = s := by
        simp [afterFailedRequest, responseInterceptorRejected_not401 s.storage h401]
      simp only [step, hst]
      exact h

theorem step_keeps_null_identity (jwtDecode : String → Option Claims)
    (tokenError : JSVal → ApiError) (s : AuthState) (a : Action)
    (h401 : a.rejected401 = true) (hnull : s.user = none) :
    (step jwtDecode tokenError s a).user = none := by
  cases a with
  | login credentials outcome =>
    cases outcome with
    | ok response => simp [Action.rejected401, is401] at h401
    | error e =>
      have hreq : (fun _ : RequestConfig => (Except.error e : Except ApiError Response))
          (requestInterceptor (loginConfig credentials) s.storage) = Except.error e := rfl
      simp only [step]
      rw [login_of_request_error jwtDecode tokenError hreq]
      exact hnull
  | signup userData outcome =>
    cases outcome with
    | ok response => simp [Action.rejected401, is401] at h401
    | error e =>
      have hreq : (fun _ : RequestConfig => (Except.error e : Except ApiError Response))
          (requestInterceptor (signupConfig userData) s.storage) = Except.error e := rfl
      simp only [step]
      rw [signup_of_request_error hreq]
      exact hnull
  | logout => rfl
  | checkAuth nowMs => simp [Action.rejected401] at h401
  | request outcome =>
    cases outcome with
    | ok response => exact hnull
    | error e => exact hnull

theorem step_preserves_strong (jwtDecode : String → Option Claims)
    (tokenError : JSVal → ApiError) (s : AuthState) (a : Action)
    (hstep : (!a.rejected401 || !s.user.isSome) = true)
    (h : tokenBacksIdentity s = true) :
    tokenBacksIdentity (step jwtDecode tokenError s a) = true := by
  by_cases h401 : a.rejected401 = false
  · exact step_preserves jwtDecode tokenError s a h401 h
  · have ht : a.rejected401 = true := by simpa using h401
    have hnull : s.user = none := by
      rw [ht] at hstep
      cases hu : s.user with
      | none => rfl
      | some u => simp [hu] at hstep
    have hres := step_keeps_null_identity jwtDecode tokenError s a ht hnull
    simp [tokenBacksIdentity, hres]

theorem run_preserves (jwtDecode : String → Option Claims) (tokenError : JSVal → ApiError)
    (actions : List Action) : ∀ s : AuthState,
    no401WhileIdentified jwtDecode tokenError s actions = true → tokenBacksIdentity s = true →
    tokenBacksIdentity (run jwtDecode tokenError s actions) = true := by
  induction actions with
  | nil => intro s _ h; exact h
  | cons a rest ih =>
    intro s hall h
    unfold no401WhileIdentified at hall
    rw [Bool.and_eq_true] at hall
    exact ih (step jwtDecode tokenError s a) hall.2
      (step_preserves_strong jwtDecode tokenError s a hall.1 h)

/-- C20, as stated, fails: alice logs in and a later upload is answered with
401; the interceptor removes the token while the identity stays set. -/
theorem identity_outlives_token_counterexample :
    (run sampleDecode sampleTokenError (initialState []) aliceRejected).user = some alice ∧
    (run sampleDecode sampleTokenError (initialState []) aliceRejected).storage.getItem "token"
      = none := by
  decide

/-- C20 (amended): in every state reached from a freshly mounted provider
through login, signup, logout, checkAuth and requests made through the api
client, where no request is answered with status 401 while an identity is
set, the identity `user` is non-null only if a token is present in storage. -/
theorem identity_backed_by_token (jwtDecode : String → Option Claims)
    (tokenError : JSVal → ApiError) (storage : Storage) (actions : List Action)
    (hno401 : no401WhileIdentified jwtDecode tokenError (initialState storage) actions = true) :
    (run jwtDecode tokenError (initialState storage) actions).user.isSome = true →
    ((run jwtDecode tokenError (initialState storage) actions).storage.getItem
      "token").isSome = true :=
  (tokenBacksIdentity_iff _).mp
    (run_preserves jwtDecode tokenError actions (initialState storage) hno401 rfl)

/-- Witness of C20 (amended): after a login rejected with 401, a successful
login, an identity check and a timed out upload alice is identified and her
token is stored. -/
theorem identity_backed_by_token_witness :
    (run sampleDecode sampleTokenError (initialState [("theme", "dark")])
      aliceDay).user = some alice ∧
    ((run sampleDecode sampleTokenError (initialState [("theme", "dark")])
      aliceDay).storage.getItem "token").isSome = true :=
  ⟨by decide,
   identity_backed_by_token sampleDecode sampleTokenError [("theme", "dark")]
     aliceDay (by decide) (by decide)⟩

/-! ## Repeated identity checks -/

/-- C21, as stated, fails in its last part: the empty string is a stored token
that does not decode, and both calls of `checkAuth` leave the identity of
alice in place. -/
theorem checkAuth_twice_counterexample :
    (sessionWith "" (some alice)).storage.getItem "token" = some "" ∧
    sampleDecode "" = none ∧
    (checkAuth sampleDecode sampleNow (sessionWith "" (some alice))).2.user = some alice ∧
    (checkAuth sampleDecode sampleNow
      (checkAuth sampleDecode sampleNow (sessionWith "" (some alice))).2).2.user
      = some alice := by
  decide

/-- C21 (amended): calling `checkAuth` twice in a row with the same clock is
idempotent: for every storage and identity neither call throws and the state
after the second call is the state after the first; for a non-empty stored
token that does not decode, or whose expiry claim is non-zero and earlier than
the clock, both calls leave a null identity. -/
theorem checkAuth_idempotent (jwtDecode : String → Option Claims) (nowMs : Nat)
    (s : AuthState) :
    (checkAuth jwtDecode nowMs s).1 = Except.ok () ∧
    (checkAuth jwtDecode nowMs (checkAuth jwtDecode nowMs s).2).1 = Except.ok () ∧
    (checkAuth jwtDecode nowMs (checkAuth jwtDecode nowMs s).2).2
      = (checkAuth jwtDecode nowMs s).2 ∧
    (∀ t : String, s.storage.getItem "token" = some t → t ≠ "" →
      (jwtDecode t = none ∨ ∃ c, jwtDecode t = some c ∧ isExpired c nowMs = true) →
      (checkAuth jwtDecode nowMs s).2.user = none ∧
      (checkAuth jwtDecode nowMs (checkAuth jwtDecode nowMs s).2).2.user = none) := by
  have hidem : (checkAuth jwtDecode nowMs (checkAuth jwtDecode nowMs s).2).2
      = (checkAuth jwtDecode nowMs s).2 := by
    unfold checkAuth
    simp only []
    cases hs : s.storage.getItem "token" with
    | none => simp [tokenTruthy, hs]
    | some t =>
      by_cases ht : t = ""
      · subst ht
        simp [tokenTruthy, hs]
      · simp only [tokenTruthy_some ht, if_true, Option.getD_some]
        cases hd : jwtDecode t with
        | none => simp [Storage.getItem_removeItem_self, tokenTruthy]
        | some c =>
          by_cases hx : isExpired c nowMs = true
          · simp [hx, Storage.getItem_removeItem_self, tokenTruthy]
          · simp [hx, hs, tokenTruthy_some ht, hd]
  refine ⟨rfl, rfl, hidem, ?_⟩
  intro t hs ht hbad
  have hfirst : (checkAuth jwtDecode nowMs s).2.user = none := by
    rcases hbad with hd | ⟨c, hd, hx⟩
    · simp [checkAuth, hs, tokenTruthy_some ht, hd]
    · simp [checkAuth, hs, tokenTruthy_some ht, hd, hx]
  exact ⟨hfirst, by rw [hidem]; exact hfirst⟩

/-! ## logout -/

theorem Storage.removeItem_removeItem (st : Storage) (key : String) :
    (st.removeItem key).removeItem key = st.removeItem key := by
  simp [Storage.removeItem, List.filter_filter]

theorem Storage.removeItem_of_absent (st : Storage) (key : String)
    (h : st.getItem key = none) : st.removeItem key = st := by
  induction st with
  | nil => rfl
  | cons p rest ih =>
    obtain ⟨k, v⟩ := p
    unfold Storage.removeItem Storage.getItem at *
    by_cases hk : key = k
    · subst hk
      simp [List.lookup_cons] at h
    · have h2 : (key == k) = false := by simpa using hk
      have h1 : (k != key) = true := by simpa using fun e : k = key => hk e.symm
      rw [List.lookup_cons, h2] at h
      simp only [List.filter_cons, h1, if_true]
      rw [ih h]

/-- C22: after `logout` no token is stored and the identity and the last
error are null; the other keys are untouched; with no token stored the
storage is left as it was; a second `logout` changes nothing; the same holds
for `logout` of api.js. Neither function takes the transport as an argument,
so neither makes a request. -/
theorem logout_clears (s : AuthState) (key : String) :
    (logout s).storage.getItem "token" = none ∧
    (logout s).user = none ∧
    (logout s).error = JSVal.null ∧
    (key ≠ "token" → (logout s).storage.getItem key = s.storage.getItem key) ∧
    (s.storage.getItem "token" = none → (logout s).storage = s.storage) ∧
    logout (logout s) = logout s ∧
    (Api.logout s.storage).getItem "token" = none ∧
    Api.logout (Api.logout s.storage) = Api.logout s.storage := by
  refine ⟨Storage.getItem_removeItem_self _ _, rfl, rfl,
    fun h => Storage.getItem_removeItem_ne _ h,
    fun h => Storage.removeItem_of_absent _ _ h, ?_,
    Storage.getItem_removeItem_self _ _, Storage.removeItem_removeItem _ _⟩
  simp [logout, Storage.removeItem_removeItem]

/-! ## Successful signup -/

/-- C24: whenever the signup request succeeds, `signup` of api.js and `signup`
of the context return the payload of the response unchanged and raise
nothing, the response interceptor returns the response it was given, and
storage and identity are as before. -/
theorem signup_success (http : RequestConfig → Except ApiError Response)
    (userData : UserData) (s : AuthState) (response : Response)
    (hok : http (requestInterceptor (signupConfig userData) s.storage) = Except.ok response) :
    Api.signup http userData s.storage = (Except.ok response.data, s.storage) ∧
    (signup http userData s).1 = Except.ok response.data ∧
    (signup http userData s).2.storage = s.storage ∧
    (signup http userData s).2.user = s.user ∧
    (signup http userData s).2.error = JSVal.null ∧
    responseInterceptorFulfilled response = response ∧
    apiPost http s.storage (signupConfig userData) = (Except.ok response, s.storage) := by
  have h1 : Api.signup http userData s.storage = (Except.ok response.data, s.storage) := by
    simp [Api.signup, apiPost_ok hok]
  refine ⟨h1, ?_, ?_, ?_, ?_, rfl, apiPost_ok hok⟩ <;> simp [signup, h1]

/-- Witness of C24: the signup of alice is answered with the created user. -/
theorem signup_success_witness :
    (signup (fun _ => Except.ok createdAlice) aliceSignup (initialState [])).1
      = Except.ok (JSVal.obj [("id", JSVal.num 7 (by decide)), ("username", JSVal.str "alice")]) ∧
    (signup (fun _ => Except.ok createdAlice) aliceSignup (initialState [])).2.storage = [] :=
  have h := signup_success (fun _ => Except.ok createdAlice) aliceSignup (initialState [])
    createdAlice rfl
  ⟨h.2.1, h.2.2.1⟩

/-! ## The expiry rule of checkAuth -/

/-- C27: for a stored token that decodes, `checkAuth` removes it and resets
the identity exactly when its `exp` claim is present, non-zero and strictly
below the clock; in every other case, in particular for `exp` equal to the
clock, for a missing `exp` and for `exp` 0, the identity is set from `sub`
and the storage is unchanged. -/
theorem checkAuth_expiry_rule (jwtDecode : String → Option Claims) (nowMs : Nat)
    (s : AuthState) (t : String) (c : Claims)
    (hempty : jwtDecode "" = none)
    (hstored : s.storage.getItem "token" = some t)
    (hdec : jwtDecode t = some c) :
    ((∃ e : Int, c.exp = some e ∧ e ≠ 0 ∧ e * 1000 < (nowMs : Int)) →
      (checkAuth jwtDecode nowMs s).2.user = none ∧
      (checkAuth jwtDecode nowMs s).2.storage.getItem "token" = none) ∧
    (¬ (∃ e : Int, c.exp = some e ∧ e ≠ 0 ∧ e * 1000 < (nowMs : Int)) →
      (checkAuth jwtDecode nowMs s).2.user = some { username := c.sub } ∧
      (checkAuth jwtDecode nowMs s).2.storage = s.storage) ∧
    (c.exp = none ∨ c.exp = some 0 ∨ (∃ e : Int, c.exp = some e ∧ e * 1000 = (nowMs : Int)) →
      (checkAuth jwtDecode nowMs s).2.user = some { username := c.sub } ∧
      (checkAuth jwtDecode nowMs s).2.storage = s.storage) := by
  have ht : t ≠ "" := by
    intro h
    rw [h, hempty] at hdec
    exact Option.noConfusion hdec
  have hiff : isExpired c nowMs = true ↔
      ∃ e : Int, c.exp = some e ∧ e ≠ 0 ∧ e * 1000 < (nowMs : Int) := by
    unfold isExpired
    cases hc : c.exp with
    | none => simp
    | some e => simp
  have hyes : isExpired c nowMs = true →
      (checkAuth jwtDecode nowMs s).2.user = none ∧
      (checkAuth jwtDecode nowMs s).2.storage.getItem "token" = none := by
    intro hx
    simp [checkAuth, hstored, tokenTruthy_some ht, hdec, hx, Storage.getItem_removeItem_self]
  have hno : ¬ isExpired c nowMs = true →
      (checkAuth jwtDecode nowMs s).2.user = some { username := c.sub } ∧
      (checkAuth jwtDecode nowMs s).2.storage = s.storage := by
    intro hx
    simp [checkAuth, hstored, tokenTruthy_some ht, hdec, hx]
  refine ⟨fun h => hyes (hiff.mpr h), fun h => hno (fun hx => h (hiff.mp hx)), ?_⟩
  intro h
  apply hno
  rw [hiff]
  rintro ⟨e, he, hne, hlt⟩
  rcases h with h | h | h
  · rw [h] at he; exact Option.noConfusion he
  · rw [h] at he
    exact hne (Option.some.inj he).symm
  · obtain ⟨e2, he2, heq⟩ := h
    rw [he2] at he
    have h3 : e2 = e := Option.some.inj he
    rw [h3] at heq
    rw [heq] at hlt
    exact lt_irrefl _ hlt

/-- Witness of C27: the sample token of carol, whose `exp` is 0, is accepted
and kept. -/
theorem checkAuth_expiry_rule_witness :
    (checkAuth sampleDecode sampleNow (sessionWith "epoch.jwt" none)).2.user
      = some { username := JSVal.str "carol" } ∧
    (checkAuth sampleDecode sampleNow (sessionWith "epoch.jwt" none)).2.storage
      = (sessionWith "epoch.jwt" none).storage :=
  (checkAuth_expiry_rule sampleDecode sampleNow (sessionWith "epoch.jwt" none) "epoch.jwt"
    { sub := JSVal.str "carol", exp := some 0 } (by decide) (by decide) (by decide)).2.2
    (Or.inr (Or.inl rfl))

/-! ## Responses other than 401 -/

/-- C28: for every error whose response is absent or has a status other than
401, the response interceptor leaves the storage as it was and rejects with
the error it received; so does a request through `api`. -/
theorem responseInterceptor_other_status (http : RequestConfig → Except ApiError Response)
    (config : RequestConfig) (st : Storage) (error : ApiError)
    (hstatus : ∀ r : Response, error.response = some r → r.status ≠ 401)
    (hfail : http (requestInterceptor config st) = Except.error error) :
    responseInterceptorRejected error st = (error, st) ∧
    apiPost http st config = (Except.error error, st) := by
  have h : responseInterceptorRejected error st = (error, st) := by
    unfold responseInterceptorRejected
    cases hr : error.response with
    | none => rfl
    | some r => simp [hstatus r hr]
  rw [apiPost_error hfail, h]
  exact ⟨rfl, rfl⟩

/-- Witness of C28: a 403 answer to an upload of alice keeps her token. -/
theorem responseInterceptor_other_status_witness :
    apiPost (fun _ => Except.error forbidden403)
      (sessionWith "alice.jwt" (some alice)).storage uploadConfig
      = (Except.error forbidden403, (sessionWith "alice.jwt" (some alice)).storage) :=
  (responseInterceptor_other_status (fun _ => Except.error forbidden403) uploadConfig
    (sessionWith "alice.jwt" (some alice)).storage forbidden403
    (by intro r h; cases h; decide) rfl).2

/-! ## The storage key -/

theorem Storage.getItem_setItem_ne (st : Storage) {key other : String} (value : String)
    (h : other ≠ key) : (st.setItem key value).getItem other = st.getItem other :=
  lookup_setHeader_ne st value h

theorem responseInterceptorRejected_frame (error : ApiError) (st : Storage) {key : String}
    (h : key ≠ "token") :
    (responseInterceptorRejected error st).2.getItem key = st.getItem key := by
  unfold responseInterceptorRejected
  cases error.response with
  | none => rfl
  | some r =>
    by_cases h401 : r.status = 401
    · simp only [h401, if_true]
      exact Storage.getItem_removeItem_ne st h
    · simp [h401]

theorem apiPost_frame (http : RequestConfig → Except ApiError Response) (st : Storage)
    (config : RequestConfig) {key : String} (h : key ≠ "token") :
    (apiPost http st config).2.getItem key = st.getItem key := by
  unfold apiPost
  cases http (requestInterceptor config st) with
  | ok response => rfl
  | error e => exact responseInterceptorRejected_frame e st h

theorem apiLogin_frame (http : RequestConfig → Except ApiError Response)
    (credentials : Credentials) (st : Storage) {key : String} (h : key ≠ "token") :
    (Api.login http credentials st).2.getItem key = st.getItem key := by
  have hp := apiPost_frame http st (loginConfig credentials) h
  unfold Api.login
  revert hp
  generalize apiPost http st (loginConfig credentials) = r
  intro hp
  obtain ⟨res, st1⟩ := r
  cases res with
  | error e => exact hp
  | ok response =>
    simp only []
    cases response.data.prop "access_token" with
    | error e => exact hp
    | ok tok =>
      by_cases ht : tok.truthy = true
      · simp only [ht, if_true]
        rw [Storage.getItem_setItem_ne st1 _ h]
        exact hp
      · simp only [ht]
        exact hp

theorem apiSignup_frame (http : RequestConfig → Except ApiError Response)
    (userData : UserData) (st : Storage) {key : String} (h : key ≠ "token") :
    (Api.signup http userData st).2.getItem key = st.getItem key := by
  have hp := apiPost_frame http st (signupConfig userData) h
  unfold Api.signup
  revert hp
  generalize apiPost http st (signupConfig userData) = r
  intro hp
  obtain ⟨res, st1⟩ := r
  cases res <;> exact hp

theorem login_frame (jwtDecode : String → Option Claims) (tokenError : JSVal → ApiError)
    (http : RequestConfig → Except ApiError Response) (credentials : Credentials)
    (s : AuthState) {key : String} (h : key ≠ "token") :
    (login jwtDecode tokenError http credentials s).2.storage.getItem key
      = s.storage.getItem key := by
  have hp := apiLogin_frame http credentials s.storage h
  unfold login
  simp only []
  revert hp
  generalize Api.login http credentials s.storage = r
  intro hp
  obtain ⟨res, st1⟩ := r
  cases res with
  | error e => exact hp
  | ok response =>
    simp only []
    cases response.prop "access_token" with
    | error e => exact hp
    | ok tok =>
      simp only []
      cases decodeValue jwtDecode tokenError tok <;>
        simp only [loginCatch] <;>
        rw [Storage.getItem_setItem_ne st1 _ h] <;>
        exact hp

theorem signup_frame (http : RequestConfig → Except ApiError Response) (userData : UserData)
    (s : AuthState) {key : String} (h : key ≠ "token") :
    (signup http userData s).2.storage.getItem key = s.storage.getItem key := by
  have hp := apiSignup_frame http userData s.storage h
  unfold signup
  simp only []
  revert hp
  generalize Api.signup http userData s.storage = r
  intro hp
  obtain ⟨res, st1⟩ := r
  cases res <;> exact hp

theorem checkAuth_frame (jwtDecode : String → Option Claims) (nowMs : Nat) (s : AuthState)
    {key : String} (h : key ≠ "token") :
    (checkAuth jwtDecode nowMs s).2.storage.getItem key = s.storage.getItem key := by
  unfold checkAuth
  simp only []
  by_cases ht : tokenTruthy (s.storage.getItem "token") = true
  · simp only [ht, if_true]
    cases jwtDecode ((s.storage.getItem "token").getD "") with
    | none => exact Storage.getItem_removeItem_ne _ h
    | some c =>
      by_cases hx : isExpired c nowMs = true
      · simp only [hx, if_true]
        exact Storage.getItem_removeItem_ne _ h
      · simp [hx]
  · simp [ht]

/-- C25: every operation of the session layer leaves each storage key other
than `token` as it was, and what the reading operations return depends on
the storage only through the value stored under `token`. -/
theorem only_token_key (jwtDecode : String → Option Claims) (tokenError : JSVal → ApiError)
    (http : RequestConfig → Except ApiError Response) (credentials : Credentials)
    (userData : UserData) (error : ApiError) (config : RequestConfig) (nowMs : Nat)
    (s : AuthState) (key : String)
    (hkey : key ≠ "token") :
    (Api.login http credentials s.storage).2.getItem key = s.storage.getItem key ∧
    (Api.signup http userData s.storage).2.getItem key = s.storage.getItem key ∧
    (Api.logout s.storage).getItem key = s.storage.getItem key ∧
    (responseInterceptorRejected error s.storage).2.getItem key = s.storage.getItem key ∧
    (login jwtDecode tokenError http credentials s).2.storage.getItem key
      = s.storage.getItem key ∧
    (signup http userData s).2.storage.getItem key = s.storage.getItem key ∧
    (logout s).storage.getItem key = s.storage.getItem key ∧
    (checkAuth jwtDecode nowMs s).2.storage.getItem key = s.storage.getItem key ∧
    (∀ other : Storage, other.getItem "token" = s.storage.getItem "token" →
      requestInterceptor config other = requestInterceptor config s.storage ∧
      Api.isAuthenticated other = Api.isAuthenticated s.storage ∧
      (checkAuth jwtDecode nowMs { s with storage := other }).2.user
        = (checkAuth jwtDecode nowMs s).2.user) := by
  refine ⟨apiLogin_frame http credentials s.storage hkey,
    apiSignup_frame http userData s.storage hkey,
    Storage.getItem_removeItem_ne _ hkey,
    responseInterceptorRejected_frame error s.storage hkey,
    login_frame jwtDecode tokenError http credentials s hkey,
    signup_frame http userData s hkey,
    Storage.getItem_removeItem_ne _ hkey,
    checkAuth_frame jwtDecode nowMs s hkey, ?_⟩
  intro other hother
  refine ⟨?_, ?_, ?_⟩
  · simp [requestInterceptor, hother]
  · simp [Api.isAuthenticated, hother]
  · unfold checkAuth
    simp only [hother]
    by_cases ht : tokenTruthy (s.storage.getItem "token") = true
    · simp only [ht, if_true]
      cases jwtDecode ((s.storage.getItem "token").getD "") with
      | none => rfl
      | some c => by_cases hx : isExpired c nowMs = true <;> simp [hx]
    · simp [ht]

/-- Witness of C25: the theme preference survives a login, a rejected
request, an identity check and a logout. -/
theorem only_token_key_witness :
    (login sampleDecode sampleTokenError (fun _ => Except.ok (tokenResponse "alice.jwt"))
      aliceCredentials (sessionWith "old.jwt" none)).2.storage.getItem "theme" = some "dark" ∧
    (responseInterceptorRejected rejected401 (sessionWith "old.jwt" none).storage).2.getItem
      "theme" = some "dark" ∧
    (checkAuth sampleDecode sampleNow (sessionWith "old.jwt" none)).2.storage.getItem "theme"
      = some "dark" ∧
    (logout (sessionWith "old.jwt" none)).storage.getItem "theme" = some "dark" :=
  have h := only_token_key sampleDecode sampleTokenError
    (fun _ => Except.ok (tokenResponse "alice.jwt")) aliceCredentials aliceSignup rejected401
    uploadConfig sampleNow (sessionWith "old.jwt" none) "theme" (by decide)
  ⟨h.2.2.2.2.1.trans (by decide), h.2.2.2.1.trans (by decide),
   h.2.2.2.2.2.2.2.1.trans (by decide), h.2.2.2.2.2.2.1.trans (by decide)⟩

/-! ## Signup followed by a failed login -/

/-- C26: in `handleSignupSubmit`, whenever the inputs pass validation,
`signup` succeeds with a payload (a truthy one, on which the handler makes the
automatic login) and that login returns false, `login` has been called once,
the form switches to the login tab with the message "Registration successful.
Please log in.", `navigate` is not called, and the message is not the generic
signup failure text. -/
theorem handleSignupSubmit_login_fails (jwtDecode : String → Option Claims)
    (tokenError : JSVal → ApiError) (http : RequestConfig → Except ApiError Response)
    (authError : JSVal) (signupData : SignupData) (form : FormState) (auth : AuthState)
    (result : JSVal)
    (hfilled : signupData.username ≠ "" ∧ signupData.email ≠ "" ∧ signupData.password ≠ "" ∧
      signupData.confirmPassword ≠ "")
    (hsame : signupData.password = signupData.confirmPassword)
    (hsignup : (signup http
        { username := JSVal.str signupData.username, email := JSVal.str signupData.email,
          password := JSVal.str signupData.password } auth).1 = Except.ok result)
    (hpayload : result.truthy = true)
    (hlogin : (login jwtDecode tokenError http
        { username := JSVal.str signupData.username, email := JSVal.undefined,
          password := JSVal.str signupData.password }
        (signup http
          { username := JSVal.str signupData.username, email := JSVal.str signupData.email,
            password := JSVal.str signupData.password } auth).2).1 = Except.ok false) :
    (handleSignupSubmit jwtDecode tokenError http authError signupData form auth).form.activeTab
      = "login" ∧
    (handleSignupSubmit jwtDecode tokenError http authError signupData form auth).form.error
      = JSVal.str "Registration successful. Please log in." ∧
    (handleSignupSubmit jwtDecode tokenError http authError signupData form auth).form.error
      ≠ JSVal.str "Signup failed. Please try again." ∧
    (handleSignupSubmit jwtDecode tokenError http authError signupData form auth).navigated
      = none ∧
    (handleSignupSubmit jwtDecode tokenError http authError signupData form auth).signupCalls
      = 1 ∧
    (handleSignupSubmit jwtDecode tokenError http authError signupData form auth).loginCalls
      = 1 ∧
    (handleSignupSubmit jwtDecode tokenError http authError signupData form auth).form.loading
      = false ∧
    (handleSignupSubmit jwtDecode tokenError http authError signupData form auth).auth
      = (login jwtDecode tokenError http
          { username := JSVal.str signupData.username, email := JSVal.undefined,
            password := JSVal.str signupData.password }
          (signup http
            { username := JSVal.str signupData.username, email := JSVal.str signupData.email,
              password := JSVal.str signupData.password } auth).2).2 := by
  obtain ⟨h1, h2, h3, h4⟩ := hfilled
  have hv : ¬ (signupData.username = "" ∨ signupData.email = "" ∨ signupData.password = "" ∨
      signupData.confirmPassword = "") := by
    simp [h1, h2, h3, h4]
  unfold handleSignupSubmit
  simp only []
  rw [if_neg hv, if_neg (not_not.mpr hsame)]
  revert hsignup hlogin
  generalize signup http
    { username := JSVal.str signupData.username, email := JSVal.str signupData.email,
      password := JSVal.str signupData.password } auth = r
  obtain ⟨res, auth1⟩ := r
  intro hsignup
  simp only [] at hsignup
  subst hsignup
  simp only [hpayload, if_true]
  generalize login jwtDecode tokenError http
    { username := JSVal.str signupData.username, email := JSVal.undefined,
      password := JSVal.str signupData.password } auth1 = q
  obtain ⟨lres, auth2⟩ := q
  intro hlogin
  simp only [] at hlogin
  subst hlogin
  exact ⟨rfl, rfl, by simp, rfl, rfl, rfl, rfl, rfl⟩

/-- Witness of C26: the server creates alice and then rejects her login. -/
theorem handleSignupSubmit_login_fails_witness :
    (handleSignupSubmit sampleDecode sampleTokenError signupOnlyServer JSVal.null aliceForm
      signupTab (initialState [])).form.activeTab = "login" ∧
    (handleSignupSubmit sampleDecode sampleTokenError signupOnlyServer JSVal.null aliceForm
      signupTab (initialState [])).form.error
      = JSVal.str "Registration successful. Please log in." ∧
    (handleSignupSubmit sampleDecode sampleTokenError signupOnlyServer JSVal.null aliceForm
      signupTab (initialState [])).navigated = none ∧
    (handleSignupSubmit sampleDecode sampleTokenError signupOnlyServer JSVal.null aliceForm
      signupTab (initialState [])).loginCalls = 1 :=
  have h := handleSignupSubmit_login_fails sampleDecode sampleTokenError signupOnlyServer
    JSVal.null aliceForm signupTab (initialState [])
    (JSVal.obj [("username", JSVal.str "alice")])
    (by decide) (by decide) (by decide) (by decide) (by decide)
  ⟨h.1, h.2.1, h.2.2.2.1, h.2.2.2.2.2.1⟩

/-! ## The body of the login request -/

theorem toFormUrlEncoded_two (k1 k2 : String) (v1 v2 : JSVal) :
    toFormUrlEncoded [(k1, v1), (k2, v2)] =
      encodeURIComponent k1 ++ "=" ++ encodeURIComponent v1.toJSString ++ "&" ++
        (encodeURIComponent k2 ++ "=" ++ encodeURIComponent v2.toJSString) := by
  simp [toFormUrlEncoded, String.intercalate, String.intercalate.go]

/-- C23: for every credentials object the body sent by `login` of api.js is
the string "username=" + encodeURIComponent(u) + "&password=" +
encodeURIComponent(password), where u is `credentials.username` when that is
truthy (for a string: non-empty) and `credentials.email` otherwise; it is
sent with content type application/x-www-form-urlencoded, also after the
request interceptor. -/
theorem login_request_body (credentials : Credentials) (st : Storage) :
    (loginConfig credentials).data = RequestBody.form
      ("username=" ++ encodeURIComponent (credentials.username.or credentials.email).toJSString
        ++ "&password=" ++ encodeURIComponent credentials.password.toJSString) ∧
    (∀ name : String, credentials.username = JSVal.str name → name ≠ "" →
      credentials.username.or credentials.email = JSVal.str name) ∧
    (credentials.username = JSVal.str "" ∨ credentials.username = JSVal.undefined →
      credentials.username.or credentials.email = credentials.email) ∧
    (requestInterceptor (loginConfig credentials) st).data = (loginConfig credentials).data ∧
    (requestInterceptor (loginConfig credentials) st).url = "/auth/login" ∧
    (requestInterceptor (loginConfig credentials) st).headers.lookup "Content-Type"
      = some "application/x-www-form-urlencoded" := by
  have hu : encodeURIComponent "username" = "username" := by decide
  have hp : encodeURIComponent "password" = "password" := by decide
  refine ⟨?_, ?_, ?_, ?_, ?_, ?_⟩
  · have h1 : ∀ x : String, "username" ++ ("=" ++ x) = "username=" ++ x := by
      intro x
      rw [← String.append_assoc]
      rfl
    have h2 : ∀ x : String, "&" ++ ("password" ++ ("=" ++ x)) = "&password=" ++ x := by
      intro x
      rw [← String.append_assoc, ← String.append_assoc]
      rfl
    simp only [loginConfig, toFormUrlEncoded_two, hu, hp, String.append_assoc, h1, h2]
  · intro name hn hne
    simp [JSVal.or, hn, JSVal.truthy, hne]
  · intro h
    rcases h with h | h <;> simp [JSVal.or, h, JSVal.truthy]
  · rcases requestInterceptor_authorization (loginConfig credentials) st with
      ⟨t, _, _, _, _, hd, _⟩ | ⟨_, h⟩
    · exact hd
    · rw [h]
  · rcases requestInterceptor_authorization (loginConfig credentials) st with
      ⟨t, _, _, _, hurl, _, _⟩ | ⟨_, h⟩
    · rw [hurl]; rfl
    · rw [h]; rfl
  · rcases requestInterceptor_authorization (loginConfig credentials) st with
      ⟨t, _, _, _, _, _, hh⟩ | ⟨_, h⟩
    · rw [hh "Content-Type" (by decide)]; rfl
    · rw [h]; rfl

/-! ## validateFile -/

theorem typeMatches_iff (fileType type : List Char) :
    typeMatches fileType type = true ↔
      (includesSub ['/', '*'] type = true ∧
        (baseType type ++ ['/']).isPrefixOf fileType = true) ∨
      (includesSub ['/', '*'] type = false ∧ type = fileType) := by
  unfold typeMatches
  by_cases h : includesSub ['/', '*'] type = true
  · simp [h]
  · have h2 : includesSub ['/', '*'] type = false := by simpa using h
    simp [h2]

/-- C30, as stated, fails: with the accept list "image/svg/*" a small file of
type "image/png" is accepted, although its type neither equals the entry nor
starts with "image/svg/". -/
theorem validateFile_counterexample :
    acceptedTypes "image/svg/*" = ["image/svg/*".toList] ∧
    validateFile "image/svg/*" 10 { size := 1, type := "image/png" } = (true, none) ∧
    "image/png" ≠ "image/svg/*" ∧
    "image/svg/".toList.isPrefixOf "image/png".toList = false := by
  decide

/-- C30 (amended): `validateFile` accepts a file if and only if its size is at
most maxSize * 1024 * 1024 bytes and, for some entry of the comma-separated
accept list, either the entry contains "/*" and the MIME type starts with the
entry's text before its first "/" followed by "/", or the entry does not
contain "/*" and equals the MIME type; an oversize file is rejected with the
size-limit message whatever its type; with the defaults a file is accepted
iff its size is at most 10485760 and its type starts with "image/" or equals
"application/pdf". -/
theorem validateFile_accepts (accept : String) (maxSize : Nat) (file : FileInfo) :
    ((validateFile accept maxSize file).1 = true ↔
      file.size ≤ maxSize * 1024 * 1024 ∧
      ∃ type ∈ acceptedTypes accept,
        (includesSub ['/', '*'] type = true ∧
          (baseType type ++ ['/']).isPrefixOf file.type.toList = true) ∨
        (includesSub ['/', '*'] type = false ∧ type = file.type.toList)) ∧
    (file.size > maxSize * 1024 * 1024 →
      validateFile accept maxSize file = (false, some (sizeLimitMessage maxSize))) ∧
    ((validateFile defaultAccept defaultMaxSize file).1 = true ↔
      file.size ≤ 10485760 ∧
      ("image/".toList.isPrefixOf file.type.toList = true ∨ file.type = "application/pdf")) := by
  have hgen : ∀ (acc : String) (m : Nat),
      ((validateFile acc m file).1 = true ↔
        file.size ≤ m * 1024 * 1024 ∧
        (acceptedTypes acc).any (typeMatches file.type.toList) = true) := by
    intro acc m
    unfold validateFile
    by_cases hs : file.size > m * 1024 * 1024
    · simp only [hs, if_true]
      constructor
      · intro h; exact absurd h (by simp)
      · intro h; exact absurd hs (not_lt.mpr h.1)
    · simp only [hs, if_false]
      by_cases ha : (acceptedTypes acc).any (typeMatches file.type.toList) = true
      · simp only [ha, if_true]
        exact ⟨fun _ => ⟨not_lt.mp hs, trivial⟩, fun _ => trivial⟩
      · simp only [ha]
        constructor
        · intro h; exact absurd h (by simp)
        · intro h; exact absurd h.2 (by simp)
  refine ⟨?_, ?_, ?_⟩
  · rw [hgen accept maxSize, List.any_eq_true]
    constructor
    · rintro ⟨h1, type, hm, ht⟩
      exact ⟨h1, type, hm, (typeMatches_iff _ _).mp ht⟩
    · rintro ⟨h1, type, hm, ht⟩
      exact ⟨h1, type, hm, (typeMatches_iff _ _).mpr ht⟩
  · intro hs
    simp [validateFile, hs]
  · rw [hgen defaultAccept defaultMaxSize]
    have hacc : acceptedTypes defaultAccept = ["image/*".toList, "application/pdf".toList] := by
      decide
    have h1 : typeMatches file.type.toList "image/*".toList
        = "image/".toList.isPrefixOf file.type.toList := by
      have hi : includesSub ['/', '*'] "image/*".toList = true := by decide
      have hb : baseType "image/*".toList ++ ['/'] = "image/".toList := by decide
      unfold typeMatches
      rw [hi, hb]
      simp
    have h2 : typeMatches file.type.toList "application/pdf".toList = true ↔
        file.type = "application/pdf" := by
      have hi : includesSub ['/', '*'] "application/pdf".toList = false := by decide
      unfold typeMatches
      rw [hi]
      simp only [Bool.false_eq_true, if_false, decide_eq_true_eq]
      constructor
      · intro h
        exact (String.ext h).symm
      · intro h
        rw [h]
    have hlim : defaultMaxSize * 1024 * 1024 = 10485760 := by decide
    rw [hacc, hlim]
    simp only [List.any_cons, List.any_nil, Bool.or_false, Bool.or_eq_true, h1, h2]

/-! ## Percent-encoding and its reading -/

theorem hexValue_hexDigit {n : Nat} (h : n < 16) : hexValue (hexDigit n) = some n := by
  interval_cases n <;> decide

theorem hexDigit_ne_separator {n : Nat} (h : n < 16) :
    hexDigit n ≠ '&' ∧ hexDigit n ≠ '=' := by
  interval_cases n <;> decide

theorem unreserved_ne_special {c : Char} (h : isUriUnreserved c = true) :
    c ≠ '%' ∧ c ≠ '&' ∧ c ≠ '=' := by
  refine ⟨?_, ?_, ?_⟩ <;>
  · intro e
    subst e
    revert h
    decide

theorem char_toNat_lt (c : Char) : c.toNat < 1114112 := by
  have h := c.valid
  unfold UInt32.isValidChar Nat.isValidChar at h
  have : c.toNat = c.val.toNat := rfl
  omega

theorem utf8Bytes_lt (c : Char) : ∀ b ∈ utf8Bytes c, b < 256 := by
  have h := char_toNat_lt c
  intro b hb
  unfold utf8Bytes at hb
  split at hb
  · simp at hb; omega
  · split at hb
    · simp at hb; omega
    · split at hb
      · simp at hb; omega
      · simp at hb; omega

theorem unescapeFrom_byte {b : Nat} (h : b < 256) (rest : List Char) :
    unescapeFrom EscapeState.idle (percentEncodeByte b ++ rest) =
      (unescapeFrom EscapeState.idle rest).map (fun ts => UriToken.byte b :: ts) := by
  have h1 : b / 16 < 16 := by omega
  have h2 : b % 16 < 16 := by omega
  have h3 : 16 * (b / 16) + b % 16 = b := by omega
  simp [percentEncodeByte, unescapeFrom, hexValue_hexDigit h1, hexValue_hexDigit h2, h3]

theorem unescapeFrom_bytes : ∀ (bs : List Nat), (∀ b ∈ bs, b < 256) → ∀ rest : List Char,
    unescapeFrom EscapeState.idle (bs.flatMap percentEncodeByte ++ rest) =
      (unescapeFrom EscapeState.idle rest).map (fun ts => bs.map UriToken.byte ++ ts) := by
  intro bs
  induction bs with
  | nil => intro _ rest; simp
  | cons b tail ih =>
    intro hb rest
    have hb1 : b < 256 := hb b (List.mem_cons_self b tail)
    have htail : ∀ x ∈ tail, x < 256 := fun x hx => hb x (List.mem_cons_of_mem b hx)
    rw [List.flatMap_cons, List.append_assoc, unescapeFrom_byte hb1, ih htail rest]
    cases unescapeFrom EscapeState.idle rest <;> simp

/-- The units `encodeURIComponent` writes for one character. -/
theorem unescapeFrom_encodeChar (c : Char) (rest : List Char) :
    unescapeFrom EscapeState.idle (encodeChar c ++ rest) =
      (unescapeFrom EscapeState.idle rest).map (fun ts =>
        (if isUriUnreserved c then [UriToken.lit c] else (utf8Bytes c).map UriToken.byte)
          ++ ts) := by
  unfold encodeChar
  by_cases h : isUriUnreserved c = true
  · have hne := (unreserved_ne_special h).1
    simp [h, unescapeFrom, hne]
  · simp only [h]
    exact unescapeFrom_bytes (utf8Bytes c) (utf8Bytes_lt c) rest

theorem char_isValid (c : Char) : Nat.isValidChar c.toNat := c.valid

theorem char_ofNat_toNat (c : Char) : Char.ofNat c.toNat = c :=
  Char.ofNat_toNat c

theorem utf8DecodeFrom_bytes (c : Char) (rest : List UriToken) :
    utf8DecodeFrom none ((utf8Bytes c).map UriToken.byte ++ rest) =
      (utf8DecodeFrom none rest).map (fun cs => c :: cs) := by
  have hlt := char_toNat_lt c
  have hv := char_isValid c
  have hc := char_ofNat_toNat c
  unfold utf8Bytes
  by_cases h1 : c.toNat < 128
  · simp [h1, utf8DecodeFrom, hc]
  · by_cases h2 : c.toNat < 2048
    · have a1 : 192 ≤ 192 + c.toNat / 64 ∧ 192 + c.toNat / 64 < 224 := by omega
      have a2 : ¬ 192 + c.toNat / 64 < 128 := by omega
      have a3 : 128 ≤ 128 + c.toNat % 64 ∧ 128 + c.toNat % 64 < 192 := by omega
      have a4 : (192 + c.toNat / 64 - 192) * 64 + (128 + c.toNat % 64 - 128) = c.toNat := by
        omega
      simp only [h1, h2, if_false, if_true, List.map_cons, List.map_nil, List.cons_append,
        List.nil_append, utf8DecodeFrom, a1, a2, a3, a4, and_self, hc, hv]
    · by_cases h3 : c.toNat < 65536
      · have a1 : 224 ≤ 224 + c.toNat / 4096 ∧ 224 + c.toNat / 4096 < 240 := by omega
        have a2 : ¬ 224 + c.toNat / 4096 < 128 := by omega
        have a2b : ¬ (192 ≤ 224 + c.toNat / 4096 ∧ 224 + c.toNat / 4096 < 224) := by omega
        have a3 : 128 ≤ 128 + c.toNat / 64 % 64 ∧ 128 + c.toNat / 64 % 64 < 192 := by omega
        have a4 : 128 ≤ 128 + c.toNat % 64 ∧ 128 + c.toNat % 64 < 192 := by omega
        have a5 : ((224 + c.toNat / 4096 - 224) * 64 + (128 + c.toNat / 64 % 64 - 128)) * 64
            + (128 + c.toNat % 64 - 128) = c.toNat := by omega
        simp only [h1, h2, h3, if_false, if_true, List.map_cons, List.map_nil,
          List.cons_append, List.nil_append, utf8DecodeFrom, a1, a2, a2b, a3, a4, a5, and_self,
          hc, hv, show (2 : Nat) ≠ 1 by decide, show (2 : Nat) - 1 = 1 by decide]
      · have a1 : 240 ≤ 240 + c.toNat / 262144 ∧ 240 + c.toNat / 262144 < 248 := by omega
        have a2 : ¬ 240 + c.toNat / 262144 < 128 := by omega
        have a2b : ¬ (192 ≤ 240 + c.toNat / 262144 ∧ 240 + c.toNat / 262144 < 224) := by
          omega
        have a2c : ¬ (224 ≤ 240 + c.toNat / 262144 ∧ 240 + c.toNat / 262144 < 240) := by
          omega
        have a3 : 128 ≤ 128 + c.toNat / 4096 % 64 ∧ 128 + c.toNat / 4096 % 64 < 192 := by
          omega
        have a4 : 128 ≤ 128 + c.toNat / 64 % 64 ∧ 128 + c.toNat / 64 % 64 < 192 := by omega
        have a5 : 128 ≤ 128 + c.toNat % 64 ∧ 128 + c.toNat % 64 < 192 := by omega
        have a6 : (((240 + c.toNat / 262144 - 240) * 64 + (128 + c.toNat / 4096 % 64 - 128)) * 64
            + (128 + c.toNat / 64 % 64 - 128)) * 64 + (128 + c.toNat % 64 - 128) = c.toNat := by
          omega
        simp only [h1, h2, h3, if_false, if_true, List.map_cons, List.map_nil,
          List.cons_append, List.nil_append, utf8DecodeFrom, a1, a2, a2b, a2c, a3, a4, a5, a6,
          and_self, hc, hv, show (3 : Nat) ≠ 1 by decide, show (3 : Nat) - 1 = 2 by decide,
          show (2 : Nat) ≠ 1 by decide, show (2 : Nat) - 1 = 1 by decide]

theorem utf8DecodeFrom_char (c : Char) (rest : List UriToken) :
    utf8DecodeFrom none
      ((if isUriUnreserved c then [UriToken.lit c] else (utf8Bytes c).map UriToken.byte)
        ++ rest) = (utf8DecodeFrom none rest).map (fun cs => c :: cs) := by
  by_cases h : isUriUnreserved c = true
  · simp [h, utf8DecodeFrom]
  · simp only [h]
    exact utf8DecodeFrom_bytes c rest

theorem percentDecode_encode_append (l : List Char) :
    ∃ ts : List UriToken,
      unescapeFrom EscapeState.idle (l.flatMap encodeChar) = some ts ∧
      utf8DecodeFrom none ts = some l := by
  induction l with
  | nil => exact ⟨[], rfl, rfl⟩
  | cons c tail ih =>
    obtain ⟨ts, h1, h2⟩ := ih
    refine ⟨(if isUriUnreserved c then [UriToken.lit c] else (utf8Bytes c).map UriToken.byte)
      ++ ts, ?_, ?_⟩
    · rw [List.flatMap_cons, unescapeFrom_encodeChar, h1]
      rfl
    · rw [utf8DecodeFrom_char, h2]
      rfl

theorem percentDecode_encodeURIComponent (s : String) :
    percentDecode (encodeURIComponent s).data = some s.data := by
  obtain ⟨ts, h1, h2⟩ := percentDecode_encode_append s.data
  show percentDecode (s.data.flatMap encodeChar) = some s.data
  simp [percentDecode, h1, h2]

theorem encodeChar_no_separator (c : Char) :
    ∀ ch ∈ encodeChar c, ch ≠ '&' ∧ ch ≠ '=' := by
  intro ch hch
  unfold encodeChar at hch
  by_cases h : isUriUnreserved c = true
  · simp only [h, if_true, List.mem_singleton] at hch
    subst hch
    exact ⟨(unreserved_ne_special h).2.1, (unreserved_ne_special h).2.2⟩
  · rw [if_neg h, List.mem_flatMap] at hch
    obtain ⟨b, hb, hmem⟩ := hch
    have hlt := utf8Bytes_lt c b hb
    simp only [percentEncodeByte, List.mem_cons, List.mem_singleton, List.mem_nil_iff,
      or_false] at hmem
    rcases hmem with e | e | e
    · subst e; exact ⟨by decide, by decide⟩
    · subst e; exact hexDigit_ne_separator (by omega)
    · subst e; exact hexDigit_ne_separator (by omega)

theorem encodeURIComponent_no_separator (s : String) :
    ∀ ch ∈ (encodeURIComponent s).data, ch ≠ '&' ∧ ch ≠ '=' := by
  intro ch hch
  have h : ch ∈ s.data.flatMap encodeChar := hch
  rw [List.mem_flatMap] at h
  obtain ⟨c, _, hc⟩ := h
  exact encodeChar_no_separator c ch hc

/-! ## The form-encoded body -/

theorem intercalate_cons_cons (sep a b : List Char) (rest : List (List Char)) :
    List.intercalate sep (a :: b :: rest) = a ++ (sep ++ List.intercalate sep (b :: rest)) := by
  simp [List.intercalate, List.intersperse, List.flatten]

theorem intercalate_single (sep a : List Char) : List.intercalate sep [a] = a := by
  simp [List.intercalate, List.intersperse, List.flatten]

theorem intercalate_go_data (sep : String) : ∀ (l : List String) (acc : String),
    (String.intercalate.go acc sep l).data =
      acc.data ++ (l.flatMap fun a => sep.data ++ a.data) := by
  intro l
  induction l with
  | nil => intro acc; simp [String.intercalate.go]
  | cons a tail ih =>
    intro acc
    simp [String.intercalate.go, ih, String.data_append, List.append_assoc]

theorem list_intercalate_cons (sep a : List Char) : ∀ (l : List (List Char)),
    List.intercalate sep (a :: l) = a ++ (l.flatMap fun x => sep ++ x) := by
  intro l
  induction l generalizing a with
  | nil => simp [intercalate_single]
  | cons b tail ih =>
    rw [intercalate_cons_cons, ih b]
    simp [List.append_assoc]

theorem intercalate_data (sep : String) (l : List String) :
    (sep.intercalate l).data = List.intercalate sep.data (l.map String.data) := by
  cases l with
  | nil => rfl
  | cons a tail =>
    show (String.intercalate.go a sep tail).data = _
    rw [intercalate_go_data, List.map_cons, list_intercalate_cons]
    simp [List.flatMap_map]

theorem toFormUrlEncoded_data (pairs : List (String × String)) :
    (toFormUrlEncoded (stringEntries pairs)).data =
      List.intercalate ['&'] (pairs.map fieldChars) := by
  unfold toFormUrlEncoded stringEntries
  rw [intercalate_data]
  simp only [List.map_map]
  congr 1
  apply List.map_congr_left
  intro p _
  simp [fieldChars, JSVal.toJSString, String.data_append]

theorem fieldChars_no_ampersand (p : String × String) : '&' ∉ fieldChars p := by
  intro h
  unfold fieldChars at h
  rw [List.mem_append, List.mem_cons] at h
  rcases h with h | h | h
  · exact (encodeURIComponent_no_separator p.1 _ h).1 rfl
  · exact absurd h (by decide)
  · exact (encodeURIComponent_no_separator p.2 _ h).1 rfl

theorem splitOn_fieldChars (p : String × String) :
    (fieldChars p).splitOn '=' = [(encodeURIComponent p.1).data, (encodeURIComponent p.2).data] := by
  have h := List.splitOn_intercalate
    [(encodeURIComponent p.1).data, (encodeURIComponent p.2).data] '='
    (by
      intro l hl
      simp only [List.mem_cons, List.mem_singleton, List.mem_nil_iff, or_false] at hl
      rcases hl with e | e
      · subst e; exact fun hm => (encodeURIComponent_no_separator p.1 _ hm).2 rfl
      · subst e; exact fun hm => (encodeURIComponent_no_separator p.2 _ hm).2 rfl)
    (by simp)
  rw [intercalate_cons_cons, intercalate_single] at h
  exact h

theorem parseField_fieldChars (p : String × String) : parseField (fieldChars p) = some p := by
  unfold parseField
  rw [splitOn_fieldChars]
  simp [percentDecode_encodeURIComponent]

theorem parseFields_fieldChars (pairs : List (String × String)) :
    parseFields (pairs.map fieldChars) = some pairs := by
  induction pairs with
  | nil => rfl
  | cons p tail ih => simp [parseFields, parseField_fieldChars, ih]

theorem parseForm_toFormUrlEncoded {pairs : List (String × String)} (hne : pairs ≠ []) :
    parseForm (toFormUrlEncoded (stringEntries pairs)) = some pairs := by
  unfold parseForm
  show parseFields ((toFormUrlEncoded (stringEntries pairs)).data.splitOn '&') = some pairs
  rw [toFormUrlEncoded_data, List.splitOn_intercalate (pairs.map fieldChars) '&'
    (by
      intro l hl
      rw [List.mem_map] at hl
      obtain ⟨p, _, hp⟩ := hl
      rw [← hp]
      exact fieldChars_no_ampersand p)
    (by simpa using hne)]
  exact parseFields_fieldChars pairs

theorem count_fieldChars (p : String × String) :
    (fieldChars p).count '=' = 1 ∧ (fieldChars p).count '&' = 0 := by
  have h1 : (encodeURIComponent p.1).data.count '=' = 0 :=
    List.count_eq_zero.mpr fun hm => (encodeURIComponent_no_separator p.1 _ hm).2 rfl
  have h2 : (encodeURIComponent p.2).data.count '=' = 0 :=
    List.count_eq_zero.mpr fun hm => (encodeURIComponent_no_separator p.2 _ hm).2 rfl
  constructor
  · unfold fieldChars
    rw [List.count_append, List.count_cons_self, h1, h2]
  · exact List.count_eq_zero.mpr (fieldChars_no_ampersand p)

theorem count_body (p : String × String) : ∀ (tail : List (String × String)),
    (List.intercalate ['&'] ((p :: tail).map fieldChars)).count '=' = tail.length + 1 ∧
    (List.intercalate ['&'] ((p :: tail).map fieldChars)).count '&' = tail.length := by
  intro tail
  induction tail generalizing p with
  | nil =>
    simp only [List.map_cons, List.map_nil, intercalate_single, List.length_nil]
    exact count_fieldChars p
  | cons q rest ih =>
    obtain ⟨h1, h2⟩ := ih q
    obtain ⟨c1, c2⟩ := count_fieldChars p
    simp only [List.map_cons] at h1 h2 ⊢
    rw [intercalate_cons_cons]
    simp only [List.count_append, h1, h2, c1, c2, List.length_cons]
    constructor
    · have : List.count '=' ['&'] = 0 := by decide
      omega
    · have : List.count '&' ['&'] = 1 := by decide
      omega

/-- C29: for every non-empty list of pairs of strings, the body written by
`toFormUrlEncoded` has one `=` per pair and one `&` between consecutive
pairs; splitting it on `&`, each part on `=`, and percent-decoding gives back
the pairs in their order; hence another non-empty list with the same body is
the same list. -/
theorem toFormUrlEncoded_unambiguous (pairs : List (String × String)) (hne : pairs ≠ []) :
    (toFormUrlEncoded (stringEntries pairs)).toList.count '=' = pairs.length ∧
    (toFormUrlEncoded (stringEntries pairs)).toList.count '&' = pairs.length - 1 ∧
    parseForm (toFormUrlEncoded (stringEntries pairs)) = some pairs ∧
    ∀ other : List (String × String), other ≠ [] →
      toFormUrlEncoded (stringEntries other) = toFormUrlEncoded (stringEntries pairs) →
      other = pairs := by
  have hdata : (toFormUrlEncoded (stringEntries pairs)).toList
      = List.intercalate ['&'] (pairs.map fieldChars) := toFormUrlEncoded_data pairs
  refine ⟨?_, ?_, parseForm_toFormUrlEncoded hne, ?_⟩
  · cases pairs with
    | nil => exact absurd rfl hne
    | cons p tail => rw [hdata]; exact (count_body p tail).1
  · cases pairs with
    | nil => exact absurd rfl hne
    | cons p tail => rw [hdata]; simpa using (count_body p tail).2
  · intro other hother heq
    have h1 := parseForm_toFormUrlEncoded hother
    rw [heq, parseForm_toFormUrlEncoded hne] at h1
    exact (Option.some.inj h1).symm

/-- Witness of C29: a password containing `&` and `=` stays one field. -/
theorem toFormUrlEncoded_unambiguous_witness :
    toFormUrlEncoded (stringEntries [("username", "alice"), ("password", "a&b=c")])
      = "username=alice&password=a%26b%3Dc" ∧
    parseForm (toFormUrlEncoded (stringEntries [("username", "alice"), ("password", "a&b=c")]))
      = some [("username", "alice"), ("password", "a&b=c")] :=
  ⟨by decide,
   (toFormUrlEncoded_unambiguous [("username", "alice"), ("password", "a&b=c")]
     (by decide)).2.2.1⟩

end MediScan
